import Mathlib

/-!
# drumzio: the hit detector of `drum_trigger.c`

A shallow embedding of `src/drum_trigger.h` and `src/drum_trigger.c`.

* `uint16_t` and `uint32_t` values are natural numbers; the only arithmetic
  that can wrap in the source is the unsigned subtraction of `elapsed` and the
  left shift of `ratio_q15`, and both are reduced modulo `2^32` explicitly.
* The state record passed by pointer becomes explicit state passing:
  `drum_trigger_update` returns the new state together with the event.
* `bool` fields and locals are `Bool`.
-/

namespace DrumTrigger

/-! ## Data model (`drum_trigger.h`) -/

/-- The modulus of `uint32_t` arithmetic. -/
def U32_MOD : Nat := 4294967296

/-- The modulus of `uint16_t` arithmetic. -/
def U16_MOD : Nat := 65536

/-- The enum `drum_hit_kind_t` (`drum_trigger.h` lines 15-20). -/
inductive drum_hit_kind_t where
  | DRUM_HIT_NONE
  | DRUM_HIT_HEAD
  | DRUM_HIT_RIM
  | DRUM_HIT_BOTH
  deriving DecidableEq, Repr

/-- The integer value of each enumerator: `0`, `1 << 0`, `1 << 1` and
`DRUM_HIT_HEAD | DRUM_HIT_RIM`. -/
def drum_hit_kind_t.toNat : drum_hit_kind_t → Nat
  | .DRUM_HIT_NONE => 0
  | .DRUM_HIT_HEAD => 1
  | .DRUM_HIT_RIM => 2
  | .DRUM_HIT_BOTH => 3

/-- The struct `drum_hit_t` (`drum_trigger.h` lines 25-30). -/
structure drum_hit_t where
  kind : drum_hit_kind_t
  peak_head : Nat
  peak_rim : Nat
  t_ms : Nat
  deriving DecidableEq, Repr

/-- The struct `drum_trigger_cfg_t` (`drum_trigger.h` lines 35-58). -/
structure drum_trigger_cfg_t where
  th_high_head : Nat
  th_low_head : Nat
  th_high_rim : Nat
  th_low_rim : Nat
  scan_min_ms : Nat
  release_ms : Nat
  max_group_ms : Nat
  retrigger_head_ms : Nat
  retrigger_rim_ms : Nat
  both_ratio_q15 : Nat
  min_secondary_for_both : Nat
  deriving DecidableEq, Repr

/-- The struct `drum_trigger_state_t` (`drum_trigger.h` lines 63-78). -/
structure drum_trigger_state_t where
  group_active : Bool
  group_start_ms : Nat
  peak_head : Nat
  peak_rim : Nat
  last_above_low_head_ms : Nat
  last_above_low_rim_ms : Nat
  last_hit_head_ms : Nat
  last_hit_rim_ms : Nat
  seen_high_head : Bool
  seen_high_rim : Bool
  deriving DecidableEq, Repr

/-- The state written by `drum_trigger_init`: `*st = (drum_trigger_state_t){0}`. -/
def drum_trigger_init : drum_trigger_state_t :=
  { group_active := false
    group_start_ms := 0
    peak_head := 0
    peak_rim := 0
    last_above_low_head_ms := 0
    last_above_low_rim_ms := 0
    last_hit_head_ms := 0
    last_hit_rim_ms := 0
    seen_high_head := false
    seen_high_rim := false }

/-! ## Helpers (`drum_trigger.c` lines 4-12) -/

/-- The C expression `(uint32_t)(a - b)` on two `uint32_t` values. -/
def u32_sub (a b : Nat) : Nat := (a + (U32_MOD - b % U32_MOD)) % U32_MOD

/-- The function `elapsed`: `(uint32_t)(now - since) >= dt`. -/
def elapsed (now since dt : Nat) : Bool := decide (dt ≤ u32_sub now since)

/-- The function `ratio_q15`: saturates on a zero divisor, otherwise
`((uint32_t)maxv << 15) / (uint32_t)minv`. -/
def ratio_q15 (maxv minv : Nat) : Nat :=
  if minv = 0 then 4294967295
  else ((maxv * 32768) % U32_MOD) / minv

/-- Modelled from the spec: `u16_max` is called by `drum_trigger_update` and
defined in no file under `src/`; the spec describes the peaks as running maxima
against the new readings, so it is the larger of its two arguments. -/
def u16_max (a b : Nat) : Nat := if a ≥ b then a else b

/-- Modelled from the spec: `u32_max` is called by `drum_trigger_update` and
defined in no file under `src/`; the spec computes
`last_above_low_ms = max(last_above_low_head_ms, last_above_low_rim_ms)`, so it
is the larger of its two arguments as unsigned numbers. -/
def u32_max (a b : Nat) : Nat := if a ≥ b then a else b

/-- The C test `kind & DRUM_HIT_HEAD`. -/
def drum_hit_kind_t.has_head (k : drum_hit_kind_t) : Bool := (k.toNat &&& 1) != 0

/-- The C test `kind & DRUM_HIT_RIM`. -/
def drum_hit_kind_t.has_rim (k : drum_hit_kind_t) : Bool := (k.toNat &&& 2) != 0

/-! ## `drum_trigger_update` (`drum_trigger.c` lines 14-111) -/

/-- The function `drum_trigger_update`. The state is passed in and the updated
state is returned with the event. -/
def drum_trigger_update (st : drum_trigger_state_t) (cfg : drum_trigger_cfg_t)
    (adc_head adc_rim now_ms : Nat) : drum_trigger_state_t × drum_hit_t :=
  let out : drum_hit_t :=
    { kind := .DRUM_HIT_NONE, peak_head := 0, peak_rim := 0, t_ms := now_ms }
  -- 1) start of a group when inactive
  if !st.group_active then
    let head_ready := elapsed now_ms st.last_hit_head_ms cfg.retrigger_head_ms
    let rim_ready := elapsed now_ms st.last_hit_rim_ms cfg.retrigger_rim_ms
    let head_start := head_ready && decide (adc_head ≥ cfg.th_high_head)
    let rim_start := rim_ready && decide (adc_rim ≥ cfg.th_high_rim)
    if head_start || rim_start then
      ({ st with
          group_active := true
          group_start_ms := now_ms
          peak_head := adc_head
          peak_rim := adc_rim
          seen_high_head := head_start || decide (adc_head ≥ cfg.th_high_head)
          seen_high_rim := rim_start || decide (adc_rim ≥ cfg.th_high_rim)
          last_above_low_head_ms := if adc_head ≥ cfg.th_low_head then now_ms else now_ms
          last_above_low_rim_ms := if adc_rim ≥ cfg.th_low_rim then now_ms else now_ms },
        out)
    else (st, out)
  else
    -- 2) active group: peaks and timers
    let peak_head := u16_max st.peak_head adc_head
    let peak_rim := u16_max st.peak_rim adc_rim
    let seen_high_head := if adc_head ≥ cfg.th_high_head then true else st.seen_high_head
    let seen_high_rim := if adc_rim ≥ cfg.th_high_rim then true else st.seen_high_rim
    let last_above_low_head_ms :=
      if adc_head ≥ cfg.th_low_head then now_ms else st.last_above_low_head_ms
    let last_above_low_rim_ms :=
      if adc_rim ≥ cfg.th_low_rim then now_ms else st.last_above_low_rim_ms
    let last_above_low_ms := u32_max last_above_low_head_ms last_above_low_rim_ms
    let min_scan_ok := elapsed now_ms st.group_start_ms cfg.scan_min_ms
    let released := elapsed now_ms last_above_low_ms cfg.release_ms
    let timeout := elapsed now_ms st.group_start_ms cfg.max_group_ms
    -- 3) end of the group: decision and single event
    if (min_scan_ok && released) || timeout then
      let ph := peak_head
      let pr := peak_rim
      let head_hit := seen_high_head && decide (ph ≥ cfg.th_high_head)
      let rim_hit := seen_high_rim && decide (pr ≥ cfg.th_high_rim)
      let kind : drum_hit_kind_t :=
        if !head_hit && !rim_hit then .DRUM_HIT_NONE
        else if head_hit && !rim_hit then .DRUM_HIT_HEAD
        else if !head_hit && rim_hit then .DRUM_HIT_RIM
        else
          let maxv := if ph ≥ pr then ph else pr
          let minv := if ph ≥ pr then pr else ph
          let r := ratio_q15 maxv minv
          let secondary_ok := decide (minv ≥ cfg.min_secondary_for_both)
          if secondary_ok && decide (r ≤ cfg.both_ratio_q15) then .DRUM_HIT_BOTH
          else if ph ≥ pr then .DRUM_HIT_HEAD else .DRUM_HIT_RIM
      ({ st with
          last_above_low_head_ms := last_above_low_head_ms
          last_above_low_rim_ms := last_above_low_rim_ms
          last_hit_head_ms := if kind.has_head then now_ms else st.last_hit_head_ms
          last_hit_rim_ms := if kind.has_rim then now_ms else st.last_hit_rim_ms
          group_active := false
          seen_high_head := false
          seen_high_rim := false
          peak_head := 0
          peak_rim := 0 },
        { out with kind := kind, peak_head := ph, peak_rim := pr })
    else
      ({ st with
          peak_head := peak_head
          peak_rim := peak_rim
          seen_high_head := seen_high_head
          seen_high_rim := seen_high_rim
          last_above_low_head_ms := last_above_low_head_ms
          last_above_low_rim_ms := last_above_low_rim_ms },
        out)

/-! ## Sequences of calls -/

/-- The arguments of one call: the two readings and the timestamp. -/
structure Sample where
  adc_head : Nat
  adc_rim : Nat
  now_ms : Nat
  deriving DecidableEq, Repr

/-- One call of `drum_trigger_update` on a sample. -/
def step (cfg : drum_trigger_cfg_t) (st : drum_trigger_state_t) (x : Sample) :
    drum_trigger_state_t × drum_hit_t :=
  drum_trigger_update st cfg x.adc_head x.adc_rim x.now_ms

/-- The state after calling `drum_trigger_update` on each sample in turn, as the
polling loop of `main` does. -/
def run (cfg : drum_trigger_cfg_t) : drum_trigger_state_t → List Sample → drum_trigger_state_t
  | st, [] => st
  | st, x :: xs => run cfg (step cfg st x).1 xs

/-- The events returned by the calls of `run`, in order. -/
def events (cfg : drum_trigger_cfg_t) : drum_trigger_state_t → List Sample → List drum_hit_t
  | _, [] => []
  | st, x :: xs => (step cfg st x).2 :: events cfg (step cfg st x).1 xs

/-- The configuration of `main` in `drumzio.c` (5 kHz sampling);
`(uint32_t)(1.50f * 32768.0f)` is `49152`. -/
def main_cfg : drum_trigger_cfg_t :=
  { th_high_head := 250, th_low_head := 120
    th_high_rim := 250, th_low_rim := 120
    scan_min_ms := 2
    release_ms := 4
    max_group_ms := 30
    retrigger_head_ms := 18
    retrigger_rim_ms := 18
    both_ratio_q15 := 49152
    min_secondary_for_both := 300 }

/-! ## Names for the parts of one call

The following definitions name sub-expressions of `drum_trigger_update` so that
statements can refer to them; `update_idle_quiet`, `update_idle_open`,
`update_active_keep` and `update_active_close` below prove that
`drum_trigger_update` computes exactly these. -/

/-- The local `head_start` of the idle branch (lines 23 and 26). -/
def head_start (st : drum_trigger_state_t) (cfg : drum_trigger_cfg_t)
    (adc_head now_ms : Nat) : Bool :=
  elapsed now_ms st.last_hit_head_ms cfg.retrigger_head_ms && decide (adc_head ≥ cfg.th_high_head)

/-- The local `rim_start` of the idle branch (lines 24 and 27). -/
def rim_start (st : drum_trigger_state_t) (cfg : drum_trigger_cfg_t)
    (adc_rim now_ms : Nat) : Bool :=
  elapsed now_ms st.last_hit_rim_ms cfg.retrigger_rim_ms && decide (adc_rim ≥ cfg.th_high_rim)

/-- The close condition `(min_scan_ok && released) || timeout` of lines 53-63,
evaluated after this call's updates of the two `last_above_low` timers. -/
def close_cond (st : drum_trigger_state_t) (cfg : drum_trigger_cfg_t)
    (adc_head adc_rim now_ms : Nat) : Bool :=
  (elapsed now_ms st.group_start_ms cfg.scan_min_ms &&
      elapsed now_ms
        (u32_max (if adc_head ≥ cfg.th_low_head then now_ms else st.last_above_low_head_ms)
          (if adc_rim ≥ cfg.th_low_rim then now_ms else st.last_above_low_rim_ms))
        cfg.release_ms) ||
    elapsed now_ms st.group_start_ms cfg.max_group_ms

/-- The initial value of `out` (line 19): kind `NONE` and both peaks 0. -/
def no_event (now_ms : Nat) : drum_hit_t :=
  { kind := .DRUM_HIT_NONE, peak_head := 0, peak_rim := 0, t_ms := now_ms }

/-- The classification of lines 69-93 from the two `seen_high` flags and the
final peaks `ph`, `pr`. -/
def classify (cfg : drum_trigger_cfg_t) (seen_head seen_rim : Bool) (ph pr : Nat) :
    drum_hit_kind_t :=
  if !(seen_head && decide (ph ≥ cfg.th_high_head)) &&
      !(seen_rim && decide (pr ≥ cfg.th_high_rim)) then .DRUM_HIT_NONE
  else if (seen_head && decide (ph ≥ cfg.th_high_head)) &&
      !(seen_rim && decide (pr ≥ cfg.th_high_rim)) then .DRUM_HIT_HEAD
  else if !(seen_head && decide (ph ≥ cfg.th_high_head)) &&
      (seen_rim && decide (pr ≥ cfg.th_high_rim)) then .DRUM_HIT_RIM
  else if decide ((if ph ≥ pr then pr else ph) ≥ cfg.min_secondary_for_both) &&
      decide (ratio_q15 (if ph ≥ pr then ph else pr) (if ph ≥ pr then pr else ph)
        ≤ cfg.both_ratio_q15) then .DRUM_HIT_BOTH
  else if ph ≥ pr then .DRUM_HIT_HEAD else .DRUM_HIT_RIM

/-- The flag `seen_high_head` after line 50 of an active call. -/
def seen_head_now (st : drum_trigger_state_t) (cfg : drum_trigger_cfg_t) (adc_head : Nat) : Bool :=
  if adc_head ≥ cfg.th_high_head then true else st.seen_high_head

/-- The flag `seen_high_rim` after line 51 of an active call. -/
def seen_rim_now (st : drum_trigger_state_t) (cfg : drum_trigger_cfg_t) (adc_rim : Nat) : Bool :=
  if adc_rim ≥ cfg.th_high_rim then true else st.seen_high_rim

/-- The local `head_hit` of line 69, from the state before the call and the
head reading. -/
def head_hit (st : drum_trigger_state_t) (cfg : drum_trigger_cfg_t) (adc_head : Nat) : Bool :=
  seen_head_now st cfg adc_head && decide (u16_max st.peak_head adc_head ≥ cfg.th_high_head)

/-- The local `rim_hit` of line 70, from the state before the call and the rim
reading. -/
def rim_hit (st : drum_trigger_state_t) (cfg : drum_trigger_cfg_t) (adc_rim : Nat) : Bool :=
  seen_rim_now st cfg adc_rim && decide (u16_max st.peak_rim adc_rim ≥ cfg.th_high_rim)

/-- The kind a closing call returns, from the state before the call and the
readings. -/
def final_kind (st : drum_trigger_state_t) (cfg : drum_trigger_cfg_t)
    (adc_head adc_rim : Nat) : drum_hit_kind_t :=
  classify cfg (seen_head_now st cfg adc_head) (seen_rim_now st cfg adc_rim)
    (u16_max st.peak_head adc_head) (u16_max st.peak_rim adc_rim)

/-- Every call on the samples leaves a window open: `group_active` is true
after each of them. -/
def keeps_open (cfg : drum_trigger_cfg_t) : drum_trigger_state_t → List Sample → Bool
  | _, [] => true
  | st, x :: xs => (step cfg st x).1.group_active && keeps_open cfg (step cfg st x).1 xs

/-- The value of the close condition at each call of `run`, in order. -/
def close_conds (cfg : drum_trigger_cfg_t) : drum_trigger_state_t → List Sample → List Bool
  | _, [] => []
  | st, x :: xs =>
    close_cond st cfg x.adc_head x.adc_rim x.now_ms :: close_conds cfg (step cfg st x).1 xs

/-- Scenario A of the spec: the head rises to 400 and falls to 0, the rim stays
at 50; the last above-low sample is at 101. -/
def scenario_A : List Sample :=
  [⟨300, 50, 100⟩, ⟨400, 50, 101⟩, ⟨0, 50, 102⟩, ⟨0, 50, 103⟩, ⟨0, 50, 104⟩, ⟨0, 50, 105⟩]

/-- The invariant behind "every window has a hit": while a window is open, some
channel has its `seen_high` flag set and its peak at or above its high
threshold. -/
def hit_inv (cfg : drum_trigger_cfg_t) (st : drum_trigger_state_t) : Prop :=
  st.group_active = true →
    (st.seen_high_head = true ∧ cfg.th_high_head ≤ st.peak_head) ∨
      (st.seen_high_rim = true ∧ cfg.th_high_rim ≤ st.peak_rim)

instance (cfg : drum_trigger_cfg_t) (st : drum_trigger_state_t) : Decidable (hit_inv cfg st) := by
  unfold hit_inv; infer_instance

/-- The number of events of a list whose kind is not `NONE`. -/
def count_hits (es : List drum_hit_t) : Nat :=
  (es.filter (fun e => e.kind != .DRUM_HIT_NONE)).length

/-- Scenario B of the spec: the head rises to 500 and the rim to 480 in the same
window, then both fall to 0 together. -/
def scenario_B : List Sample :=
  [⟨300, 100, 100⟩, ⟨500, 480, 101⟩, ⟨0, 0, 102⟩, ⟨0, 0, 103⟩, ⟨0, 0, 104⟩, ⟨0, 0, 105⟩]

/-- Scenario C of the spec: the head rises to 500 and the rim to 200 in the same
window, then both fall to 0 together. -/
def scenario_C : List Sample :=
  [⟨300, 100, 100⟩, ⟨500, 200, 101⟩, ⟨0, 0, 102⟩, ⟨0, 0, 103⟩, ⟨0, 0, 104⟩, ⟨0, 0, 105⟩]

/-- The largest head reading of a list of samples (0 for the empty list). -/
def max_adc_head : List Sample → Nat
  | [] => 0
  | x :: xs => max x.adc_head (max_adc_head xs)

/-- The largest rim reading of a list of samples (0 for the empty list). -/
def max_adc_rim : List Sample → Nat
  | [] => 0
  | x :: xs => max x.adc_rim (max_adc_rim xs)

/-- The state with each of its five timestamp fields advanced by `k` modulo
`2^32`; the other fields are kept. -/
def shift_state (k : Nat) (st : drum_trigger_state_t) : drum_trigger_state_t :=
  { st with
    group_start_ms := (st.group_start_ms + k) % U32_MOD
    last_above_low_head_ms := (st.last_above_low_head_ms + k) % U32_MOD
    last_above_low_rim_ms := (st.last_above_low_rim_ms + k) % U32_MOD
    last_hit_head_ms := (st.last_hit_head_ms + k) % U32_MOD
    last_hit_rim_ms := (st.last_hit_rim_ms + k) % U32_MOD }

/-- Two calls that open a window at 100 on a head reading of 400 and keep it
open at 104; the rim stays at 0. -/
def held_head_calls : List Sample := [⟨400, 0, 100⟩, ⟨400, 0, 104⟩]

/-- The calls of `held_head_calls` placed 10 ms and 6 ms before the rollover of
the 32-bit timestamp. -/
def held_head_calls_wrapped : List Sample := [⟨400, 0, 4294967286⟩, ⟨400, 0, 4294967290⟩]

/-- A configuration for Scenario D: that of `main` with `release_ms` raised to
1000, so that within `max_group_ms = 30` the release clause cannot hold and a
window closes only through the timeout. -/
def scenario_D_cfg : drum_trigger_cfg_t := { main_cfg with release_ms := 1000 }

/-- Scenario D of the spec: the head opens the window with a reading equal to
`th_high_head = 250`, then stays at 249 until the call at 130, 30 ms after the
opening. -/
def scenario_D : List Sample :=
  [⟨250, 0, 100⟩, ⟨249, 0, 105⟩, ⟨249, 0, 110⟩, ⟨249, 0, 120⟩, ⟨249, 0, 130⟩]

/-- The state after a sequence of calls in which each call comes with its own
configuration. -/
def run_cfgs : drum_trigger_state_t → List (drum_trigger_cfg_t × Sample) → drum_trigger_state_t
  | st, [] => st
  | st, c :: cs => run_cfgs (step c.1 st c.2).1 cs

/-- The idle-state invariant: when no window is open both peaks are 0 and both
`seen_high` flags are false. -/
def idle_inv (st : drum_trigger_state_t) : Prop :=
  st.group_active = false →
    st.peak_head = 0 ∧ st.peak_rim = 0 ∧ st.seen_high_head = false ∧ st.seen_high_rim = false

instance (st : drum_trigger_state_t) : Decidable (idle_inv st) := by
  unfold idle_inv; infer_instance

/-- A configuration with a zero rim threshold, no minimum on the secondary peak
and the largest `both_ratio_q15` a `uint32_t` holds; the other fields are those
of `main`. -/
def saturated_cfg : drum_trigger_cfg_t :=
  { main_cfg with
    th_high_rim := 0
    th_low_rim := 0
    min_secondary_for_both := 0
    both_ratio_q15 := 4294967295 }

/-- The invariant behind the re-check of lines 69-70: a set `seen_high` flag
comes with a peak at or above the channel's high threshold. -/
def seen_inv (cfg : drum_trigger_cfg_t) (st : drum_trigger_state_t) : Prop :=
  (st.seen_high_head = true → cfg.th_high_head ≤ st.peak_head) ∧
    (st.seen_high_rim = true → cfg.th_high_rim ≤ st.peak_rim)

instance (cfg : drum_trigger_cfg_t) (st : drum_trigger_state_t) : Decidable (seen_inv cfg st) := by
  unfold seen_inv; infer_instance

/-- Scenario A followed, 1 ms after its `HEAD` event at 105, by readings head 500
/ rim 300 and then silence on both channels. -/
def relock_calls : List Sample :=
  scenario_A ++ [⟨500, 300, 106⟩, ⟨0, 0, 107⟩, ⟨0, 0, 108⟩, ⟨0, 0, 109⟩, ⟨0, 0, 110⟩]

/-! ## The four cases of one call -/

theorem update_idle_quiet (st : drum_trigger_state_t) (cfg : drum_trigger_cfg_t)
    (h r now : Nat) (hi : st.group_active = false)
    (hs : (head_start st cfg h now || rim_start st cfg r now) = false) :
    drum_trigger_update st cfg h r now = (st, no_event now) := by
  unfold head_start rim_start at hs
  unfold drum_trigger_update
  simp only [hi, hs, Bool.not_false, ↓reduceIte, Bool.false_eq_true]
  rfl

theorem update_idle_open (st : drum_trigger_state_t) (cfg : drum_trigger_cfg_t)
    (h r now : Nat) (hi : st.group_active = false)
    (hs : (head_start st cfg h now || rim_start st cfg r now) = true) :
    drum_trigger_update st cfg h r now =
      ({ st with
          group_active := true
          group_start_ms := now
          peak_head := h
          peak_rim := r
          seen_high_head := decide (h ≥ cfg.th_high_head)
          seen_high_rim := decide (r ≥ cfg.th_high_rim)
          last_above_low_head_ms := now
          last_above_low_rim_ms := now }, no_event now) := by
  unfold head_start rim_start at hs
  unfold drum_trigger_update
  simp only [hi, hs, Bool.not_false, ↓reduceIte, ite_self]
  simp [no_event]

theorem update_active_keep (st : drum_trigger_state_t) (cfg : drum_trigger_cfg_t)
    (h r now : Nat) (ha : st.group_active = true) (hc : close_cond st cfg h r now = false) :
    drum_trigger_update st cfg h r now =
      ({ st with
          peak_head := u16_max st.peak_head h
          peak_rim := u16_max st.peak_rim r
          seen_high_head := seen_head_now st cfg h
          seen_high_rim := seen_rim_now st cfg r
          last_above_low_head_ms := if h ≥ cfg.th_low_head then now else st.last_above_low_head_ms
          last_above_low_rim_ms := if r ≥ cfg.th_low_rim then now else st.last_above_low_rim_ms },
        no_event now) := by
  unfold close_cond at hc
  unfold drum_trigger_update
  simp only [ha, hc, Bool.not_true, Bool.false_eq_true, ↓reduceIte]
  rfl

theorem update_active_close (st : drum_trigger_state_t) (cfg : drum_trigger_cfg_t)
    (h r now : Nat) (ha : st.group_active = true) (hc : close_cond st cfg h r now = true) :
    drum_trigger_update st cfg h r now =
      ({ st with
          last_above_low_head_ms := if h ≥ cfg.th_low_head then now else st.last_above_low_head_ms
          last_above_low_rim_ms := if r ≥ cfg.th_low_rim then now else st.last_above_low_rim_ms
          last_hit_head_ms :=
            if (final_kind st cfg h r).has_head then now else st.last_hit_head_ms
          last_hit_rim_ms :=
            if (final_kind st cfg h r).has_rim then now else st.last_hit_rim_ms
          group_active := false
          seen_high_head := false
          seen_high_rim := false
          peak_head := 0
          peak_rim := 0 },
        { kind := final_kind st cfg h r
          peak_head := u16_max st.peak_head h
          peak_rim := u16_max st.peak_rim r
          t_ms := now }) := by
  unfold close_cond at hc
  unfold drum_trigger_update
  simp only [ha, hc, Bool.not_true, Bool.false_eq_true, ↓reduceIte]
  rfl

/-- A call made while idle returns the initial `out`. -/
theorem update_idle_event (st : drum_trigger_state_t) (cfg : drum_trigger_cfg_t)
    (h r now : Nat) (hi : st.group_active = false) :
    (drum_trigger_update st cfg h r now).2 = no_event now := by
  cases hs : (head_start st cfg h now || rim_start st cfg r now)
  · rw [update_idle_quiet st cfg h r now hi hs]
  · rw [update_idle_open st cfg h r now hi hs]

/-- A call made with a window open closes it exactly when the close condition
holds. -/
theorem update_active_post (st : drum_trigger_state_t) (cfg : drum_trigger_cfg_t)
    (h r now : Nat) (ha : st.group_active = true) :
    (drum_trigger_update st cfg h r now).1.group_active = !close_cond st cfg h r now := by
  cases hc : close_cond st cfg h r now
  · rw [update_active_keep st cfg h r now ha hc]; simp [ha]
  · rw [update_active_close st cfg h r now ha hc]; simp

/-- While every call keeps the window open, every event is the initial `out`,
the close condition is false at every call, and the window is still open at
the end. -/
theorem keeps_open_spec (cfg : drum_trigger_cfg_t) (xs : List Sample) :
    ∀ st : drum_trigger_state_t, st.group_active = true → keeps_open cfg st xs = true →
      (∀ e ∈ events cfg st xs,
        e.kind = .DRUM_HIT_NONE ∧ e.peak_head = 0 ∧ e.peak_rim = 0) ∧
      (∀ b ∈ close_conds cfg st xs, b = false) ∧
      (run cfg st xs).group_active = true := by
  induction xs with
  | nil => intro st ha _; simp [events, close_conds, run, ha]
  | cons x xs ih =>
    intro st ha hk
    simp only [keeps_open, Bool.and_eq_true] at hk
    obtain ⟨h1, h2⟩ := hk
    have hc : close_cond st cfg x.adc_head x.adc_rim x.now_ms = false := by
      have hp := update_active_post st cfg x.adc_head x.adc_rim x.now_ms ha
      unfold step at h1
      rw [h1] at hp
      cases hcc : close_cond st cfg x.adc_head x.adc_rim x.now_ms
      · rfl
      · rw [hcc] at hp; simp at hp
    have he : (step cfg st x).2 = no_event x.now_ms := by
      unfold step
      rw [update_active_keep st cfg _ _ _ ha hc]
    obtain ⟨i1, i2, i3⟩ := ih (step cfg st x).1 h1 h2
    refine ⟨?_, ?_, ?_⟩
    · intro e hmem
      simp only [events, List.mem_cons] at hmem
      rcases hmem with rfl | hmem
      · rw [he]; simp [no_event]
      · exact i1 e hmem
    · intro b hmem
      simp only [close_conds, List.mem_cons] at hmem
      rcases hmem with rfl | hmem
      · exact hc
      · exact i2 b hmem
    · simpa [run] using i3

/-! ## The claims -/

/-- C1: `drum_trigger_update` returns a kind other than `NONE` only when
`group_active` was true before the call, the close condition holds (after this
call's timer updates) and `group_active` is false after the call; a call made
while idle, and a call after which the window is open, return the initial event
(kind `NONE`, both peaks 0); and in a sequence of calls spanning one window
(opening call `a` from an idle state, calls `mid` that keep it open, closing
call `z`) every call before `z` returns kind `NONE` with both peaks 0 and has the
close condition false where it is evaluated, and the close condition is true at
`z`: only the closing call can return an event, and it is the first call of the
open window at which the close condition holds. -/
theorem C1_event_only_at_close :
    (∀ (st : drum_trigger_state_t) (cfg : drum_trigger_cfg_t) (h r now : Nat),
      (drum_trigger_update st cfg h r now).2.kind ≠ .DRUM_HIT_NONE →
        st.group_active = true ∧ close_cond st cfg h r now = true ∧
          (drum_trigger_update st cfg h r now).1.group_active = false) ∧
    (∀ (st : drum_trigger_state_t) (cfg : drum_trigger_cfg_t) (h r now : Nat),
      (st.group_active = false ∨ (drum_trigger_update st cfg h r now).1.group_active = true) →
        (drum_trigger_update st cfg h r now).2.kind = .DRUM_HIT_NONE ∧
          (drum_trigger_update st cfg h r now).2.peak_head = 0 ∧
          (drum_trigger_update st cfg h r now).2.peak_rim = 0) ∧
    (∀ (cfg : drum_trigger_cfg_t) (s0 : drum_trigger_state_t) (a : Sample)
      (mid : List Sample) (z : Sample),
      s0.group_active = false →
      (step cfg s0 a).1.group_active = true →
      keeps_open cfg (step cfg s0 a).1 mid = true →
      (step cfg (run cfg (step cfg s0 a).1 mid) z).1.group_active = false →
        (∀ e ∈ events cfg s0 (a :: mid),
          e.kind = .DRUM_HIT_NONE ∧ e.peak_head = 0 ∧ e.peak_rim = 0) ∧
        (∀ b ∈ close_conds cfg (step cfg s0 a).1 mid, b = false) ∧
        close_cond (run cfg (step cfg s0 a).1 mid) cfg z.adc_head z.adc_rim z.now_ms = true) := by
  refine ⟨?_, ?_, ?_⟩
  · intro st cfg h r now hk
    cases ha : st.group_active
    · rw [update_idle_event st cfg h r now ha] at hk
      simp [no_event] at hk
    · cases hc : close_cond st cfg h r now
      · rw [update_active_keep st cfg h r now ha hc] at hk
        simp [no_event] at hk
      · refine ⟨rfl, rfl, ?_⟩
        rw [update_active_post st cfg h r now ha, hc]; rfl
  · intro st cfg h r now hor
    cases ha : st.group_active
    · rw [update_idle_event st cfg h r now ha]; simp [no_event]
    · rcases hor with hi | hp
      · rw [ha] at hi; cases hi
      · cases hc : close_cond st cfg h r now
        · rw [update_active_keep st cfg h r now ha hc]; simp [no_event]
        · rw [update_active_post st cfg h r now ha, hc] at hp; cases hp
  · intro cfg s0 a mid z hi ho hk hz
    obtain ⟨i1, i2, i3⟩ := keeps_open_spec cfg mid (step cfg s0 a).1 ho hk
    refine ⟨?_, i2, ?_⟩
    · intro e hmem
      simp only [events, List.mem_cons] at hmem
      rcases hmem with rfl | hmem
      · unfold step
        rw [update_idle_event s0 cfg _ _ _ hi]; simp [no_event]
      · exact i1 e hmem
    · have hp := update_active_post (run cfg (step cfg s0 a).1 mid) cfg
        z.adc_head z.adc_rim z.now_ms i3
      have hz2 : (drum_trigger_update (run cfg (step cfg s0 a).1 mid) cfg
          z.adc_head z.adc_rim z.now_ms).1.group_active = false := hz
      rw [hp] at hz2
      simpa using hz2

/-- Witness for C1 on Scenario A with the configuration of `main`: the window
opens at 100, stays open until 104 and closes at 105. -/
theorem C1_event_only_at_close_witness :
    ((drum_trigger_update (run main_cfg drum_trigger_init (scenario_A.take 5)) main_cfg
          0 50 105).2.kind ≠ .DRUM_HIT_NONE ∧
      (run main_cfg drum_trigger_init (scenario_A.take 5)).group_active = true ∧
      close_cond (run main_cfg drum_trigger_init (scenario_A.take 5)) main_cfg 0 50 105 = true ∧
      (drum_trigger_update (run main_cfg drum_trigger_init (scenario_A.take 5)) main_cfg
          0 50 105).1.group_active = false) ∧
    (drum_trigger_init.group_active = false ∧
      (drum_trigger_update drum_trigger_init main_cfg 300 50 100).2.kind = .DRUM_HIT_NONE) ∧
    ((∀ e ∈ events main_cfg drum_trigger_init (scenario_A.take 5),
        e.kind = .DRUM_HIT_NONE ∧ e.peak_head = 0 ∧ e.peak_rim = 0) ∧
      close_cond (run main_cfg (step main_cfg drum_trigger_init ⟨300, 50, 100⟩).1
        [⟨400, 50, 101⟩, ⟨0, 50, 102⟩, ⟨0, 50, 103⟩, ⟨0, 50, 104⟩]) main_cfg 0 50 105 = true) :=
  ⟨⟨by decide,
      C1_event_only_at_close.1 (run main_cfg drum_trigger_init (scenario_A.take 5)) main_cfg
        0 50 105 (by decide)⟩,
    ⟨rfl, (C1_event_only_at_close.2.1 drum_trigger_init main_cfg 300 50 100 (Or.inl rfl)).1⟩,
    ⟨(C1_event_only_at_close.2.2 main_cfg drum_trigger_init ⟨300, 50, 100⟩
        [⟨400, 50, 101⟩, ⟨0, 50, 102⟩, ⟨0, 50, 103⟩, ⟨0, 50, 104⟩] ⟨0, 50, 105⟩
        rfl (by decide) (by decide) (by decide)).1,
      (C1_event_only_at_close.2.2 main_cfg drum_trigger_init ⟨300, 50, 100⟩
        [⟨400, 50, 101⟩, ⟨0, 50, 102⟩, ⟨0, 50, 103⟩, ⟨0, 50, 104⟩] ⟨0, 50, 105⟩
        rfl (by decide) (by decide) (by decide)).2.2⟩⟩

/-! ### Lemmas on the classification and on runs -/

theorem u16_max_ge_left (a b : Nat) : a ≤ u16_max a b := by
  unfold u16_max; split <;> omega

theorem u16_max_ge_right (a b : Nat) : b ≤ u16_max a b := by
  unfold u16_max; split <;> omega

theorem u16_max_eq_max (a b : Nat) : u16_max a b = max a b := by
  unfold u16_max; split <;> omega

/-- The classification is `NONE` exactly when neither channel is hit. -/
theorem classify_eq_none_iff (cfg : drum_trigger_cfg_t) (sh sr : Bool) (ph pr : Nat) :
    classify cfg sh sr ph pr = .DRUM_HIT_NONE ↔
      (sh && decide (ph ≥ cfg.th_high_head)) = false ∧
        (sr && decide (pr ≥ cfg.th_high_rim)) = false := by
  unfold classify
  generalize (sh && decide (ph ≥ cfg.th_high_head)) = a
  generalize (sr && decide (pr ≥ cfg.th_high_rim)) = b
  cases a <;> cases b <;> simp
  split_ifs <;> simp

theorem final_kind_eq_none_iff (st : drum_trigger_state_t) (cfg : drum_trigger_cfg_t)
    (h r : Nat) :
    final_kind st cfg h r = .DRUM_HIT_NONE ↔ head_hit st cfg h = false ∧ rim_hit st cfg r = false := by
  unfold final_kind head_hit rim_hit
  exact classify_eq_none_iff cfg _ _ _ _

theorem kind_ne_none_cases (k : drum_hit_kind_t) (hk : k ≠ .DRUM_HIT_NONE) :
    k = .DRUM_HIT_HEAD ∨ k = .DRUM_HIT_RIM ∨ k = .DRUM_HIT_BOTH := by
  cases k <;> simp at hk ⊢

theorem run_append (cfg : drum_trigger_cfg_t) (xs ys : List Sample) :
    ∀ st : drum_trigger_state_t, run cfg st (xs ++ ys) = run cfg (run cfg st xs) ys := by
  induction xs with
  | nil => intro st; rfl
  | cons x xs ih => intro st; simp [run, ih]

theorem events_append (cfg : drum_trigger_cfg_t) (xs ys : List Sample) :
    ∀ st : drum_trigger_state_t,
      events cfg st (xs ++ ys) = events cfg st xs ++ events cfg (run cfg st xs) ys := by
  induction xs with
  | nil => intro st; rfl
  | cons x xs ih => intro st; simp [run, events, ih]

/-- One call preserves `hit_inv`. -/
theorem hit_inv_update (cfg : drum_trigger_cfg_t) (st : drum_trigger_state_t) (h r now : Nat)
    (hinv : hit_inv cfg st) : hit_inv cfg (drum_trigger_update st cfg h r now).1 := by
  cases ha : st.group_active
  · cases hs : (head_start st cfg h now || rim_start st cfg r now)
    · rw [update_idle_quiet st cfg h r now ha hs]; exact hinv
    · rw [update_idle_open st cfg h r now ha hs]
      intro _
      simp only [head_start, rim_start, Bool.or_eq_true, Bool.and_eq_true, decide_eq_true_eq] at hs
      rcases hs with ⟨_, hh⟩ | ⟨_, hr⟩
      · left; exact ⟨by simpa using hh, hh⟩
      · right; exact ⟨by simpa using hr, hr⟩
  · cases hc : close_cond st cfg h r now
    · rw [update_active_keep st cfg h r now ha hc]
      intro _
      rcases hinv ha with ⟨h1, h2⟩ | ⟨h1, h2⟩
      · left
        refine ⟨?_, le_trans h2 (u16_max_ge_left _ _)⟩
        simp only [seen_head_now, h1]; split <;> rfl
      · right
        refine ⟨?_, le_trans h2 (u16_max_ge_left _ _)⟩
        simp only [seen_rim_now, h1]; split <;> rfl
    · rw [update_active_close st cfg h r now ha hc]
      intro hcontra
      simp at hcontra

theorem hit_inv_run (cfg : drum_trigger_cfg_t) (xs : List Sample) :
    ∀ st : drum_trigger_state_t, hit_inv cfg st → hit_inv cfg (run cfg st xs) := by
  induction xs with
  | nil => intro st hinv; exact hinv
  | cons x xs ih => intro st hinv; exact ih _ (hit_inv_update cfg st _ _ _ hinv)

theorem hit_inv_init (cfg : drum_trigger_cfg_t) : hit_inv cfg drum_trigger_init := by
  intro h; cases h

/-- A closing call from a state satisfying `hit_inv` returns a kind other than
`NONE`. -/
theorem close_kind_ne_none (cfg : drum_trigger_cfg_t) (st : drum_trigger_state_t) (h r now : Nat)
    (hinv : hit_inv cfg st) (ha : st.group_active = true)
    (hp : (drum_trigger_update st cfg h r now).1.group_active = false) :
    (drum_trigger_update st cfg h r now).2.kind ≠ .DRUM_HIT_NONE := by
  have hc : close_cond st cfg h r now = true := by
    rw [update_active_post st cfg h r now ha] at hp
    simpa using hp
  rw [update_active_close st cfg h r now ha hc]
  show final_kind st cfg h r ≠ .DRUM_HIT_NONE
  rw [Ne, final_kind_eq_none_iff]
  rintro ⟨e1, e2⟩
  rcases hinv ha with ⟨h1, h2⟩ | ⟨h1, h2⟩
  · have : head_hit st cfg h = true := by
      simp only [head_hit, seen_head_now, h1, ite_self, Bool.true_and, decide_eq_true_eq]
      exact le_trans h2 (u16_max_ge_left _ _)
    rw [e1] at this; cases this
  · have : rim_hit st cfg r = true := by
      simp only [rim_hit, seen_rim_now, h1, ite_self, Bool.true_and, decide_eq_true_eq]
      exact le_trans h2 (u16_max_ge_left _ _)
    rw [e2] at this; cases this

theorem count_hits_of_all_none (es : List drum_hit_t)
    (h : ∀ e ∈ es, e.kind = .DRUM_HIT_NONE ∧ e.peak_head = 0 ∧ e.peak_rim = 0) :
    count_hits es = 0 := by
  unfold count_hits
  rw [List.length_eq_zero, List.filter_eq_nil_iff]
  intro e he
  simp [(h e he).1]

/-- In a window (opening call `a` from an idle state, calls `mid` that keep it
open) every call returns kind `NONE` with both peaks 0. -/
theorem window_events_none (cfg : drum_trigger_cfg_t) (s0 : drum_trigger_state_t) (a : Sample)
    (mid : List Sample) (hi : s0.group_active = false)
    (ho : (step cfg s0 a).1.group_active = true)
    (hk : keeps_open cfg (step cfg s0 a).1 mid = true) :
    ∀ e ∈ events cfg s0 (a :: mid),
      e.kind = .DRUM_HIT_NONE ∧ e.peak_head = 0 ∧ e.peak_rim = 0 := by
  intro e hmem
  simp only [events, List.mem_cons] at hmem
  rcases hmem with rfl | hmem
  · unfold step
    rw [update_idle_event s0 cfg _ _ _ hi]; simp [no_event]
  · exact (keeps_open_spec cfg mid _ ho hk).1 e hmem

/-- C2: in every sequence of calls with one configuration from the
zero-initialised state, a call that closes a window (`group_active` true before
it, false after it) returns kind `HEAD`, `RIM` or `BOTH`, never `NONE`; and the
calls of one window (opening call `a`, calls `mid` that keep it open, closing
call `z`) return exactly one event whose kind is not `NONE`. -/
theorem C2_closing_call_reports_hit :
    (∀ (cfg : drum_trigger_cfg_t) (pre : List Sample) (x : Sample),
      (run cfg drum_trigger_init pre).group_active = true →
      (step cfg (run cfg drum_trigger_init pre) x).1.group_active = false →
        ((step cfg (run cfg drum_trigger_init pre) x).2.kind = .DRUM_HIT_HEAD ∨
          (step cfg (run cfg drum_trigger_init pre) x).2.kind = .DRUM_HIT_RIM ∨
          (step cfg (run cfg drum_trigger_init pre) x).2.kind = .DRUM_HIT_BOTH) ∧
        (step cfg (run cfg drum_trigger_init pre) x).2.kind ≠ .DRUM_HIT_NONE) ∧
    (∀ (cfg : drum_trigger_cfg_t) (pre : List Sample) (a : Sample) (mid : List Sample)
      (z : Sample),
      (run cfg drum_trigger_init pre).group_active = false →
      (step cfg (run cfg drum_trigger_init pre) a).1.group_active = true →
      keeps_open cfg (step cfg (run cfg drum_trigger_init pre) a).1 mid = true →
      (step cfg (run cfg (step cfg (run cfg drum_trigger_init pre) a).1 mid) z).1.group_active
          = false →
        count_hits (events cfg (run cfg drum_trigger_init pre) (a :: (mid ++ [z]))) = 1) := by
  constructor
  · intro cfg pre x ha hp
    have hne := close_kind_ne_none cfg (run cfg drum_trigger_init pre) x.adc_head x.adc_rim
      x.now_ms (hit_inv_run cfg pre _ (hit_inv_init cfg)) ha hp
    exact ⟨kind_ne_none_cases _ hne, hne⟩
  · intro cfg pre a mid z hi ho hk hz
    have hw := window_events_none cfg (run cfg drum_trigger_init pre) a mid hi ho hk
    have hinv1 : hit_inv cfg (step cfg (run cfg drum_trigger_init pre) a).1 :=
      hit_inv_update cfg _ _ _ _ (hit_inv_run cfg pre _ (hit_inv_init cfg))
    have hact := (keeps_open_spec cfg mid _ ho hk).2.2
    have hne := close_kind_ne_none cfg _ z.adc_head z.adc_rim z.now_ms
      (hit_inv_run cfg mid _ hinv1) hact hz
    have hsplit : events cfg (run cfg drum_trigger_init pre) (a :: (mid ++ [z])) =
        events cfg (run cfg drum_trigger_init pre) (a :: mid) ++
          [(step cfg (run cfg (step cfg (run cfg drum_trigger_init pre) a).1 mid) z).2] := by
      rw [show a :: (mid ++ [z]) = (a :: mid) ++ [z] from rfl, events_append]
      simp [events, run]
    rw [hsplit]
    have h0 := count_hits_of_all_none _ hw
    unfold count_hits at h0 ⊢
    rw [List.filter_append, List.length_append, h0]
    have : (step cfg (run cfg (step cfg (run cfg drum_trigger_init pre) a).1 mid) z).2.kind
        ≠ .DRUM_HIT_NONE := hne
    have hb : ((step cfg (run cfg (step cfg (run cfg drum_trigger_init pre) a).1 mid) z).2.kind
        != .DRUM_HIT_NONE) = true := by simpa using this
    simp [List.filter, hb]

/-- Witness for C2 on Scenario A: the call at 105 closes the window opened at
100 and returns `HEAD`; the six calls return one hit. -/
theorem C2_closing_call_reports_hit_witness :
    ((run main_cfg drum_trigger_init (scenario_A.take 5)).group_active = true ∧
      (step main_cfg (run main_cfg drum_trigger_init (scenario_A.take 5))
        ⟨0, 50, 105⟩).1.group_active = false ∧
      (step main_cfg (run main_cfg drum_trigger_init (scenario_A.take 5))
        ⟨0, 50, 105⟩).2.kind ≠ .DRUM_HIT_NONE) ∧
    count_hits (events main_cfg (run main_cfg drum_trigger_init []) (⟨300, 50, 100⟩ ::
      ([⟨400, 50, 101⟩, ⟨0, 50, 102⟩, ⟨0, 50, 103⟩, ⟨0, 50, 104⟩] ++ [⟨0, 50, 105⟩]))) = 1 :=
  ⟨⟨by decide, by decide,
      (C2_closing_call_reports_hit.1 main_cfg (scenario_A.take 5) ⟨0, 50, 105⟩
        (by decide) (by decide)).2⟩,
    C2_closing_call_reports_hit.2 main_cfg [] ⟨300, 50, 100⟩
      [⟨400, 50, 101⟩, ⟨0, 50, 102⟩, ⟨0, 50, 103⟩, ⟨0, 50, 104⟩] ⟨0, 50, 105⟩
      (by decide) (by decide) (by decide) (by decide)⟩

/-- With both channels hit, the classification is the `BOTH` test followed by
the comparison of the peaks (lines 79-93). -/
theorem classify_both_hit (cfg : drum_trigger_cfg_t) (sh sr : Bool) (ph pr : Nat)
    (hh : (sh && decide (ph ≥ cfg.th_high_head)) = true)
    (hr : (sr && decide (pr ≥ cfg.th_high_rim)) = true) :
    classify cfg sh sr ph pr =
      if (decide ((if ph ≥ pr then pr else ph) ≥ cfg.min_secondary_for_both) &&
          decide (ratio_q15 (if ph ≥ pr then ph else pr) (if ph ≥ pr then pr else ph)
            ≤ cfg.both_ratio_q15)) = true then .DRUM_HIT_BOTH
      else if ph ≥ pr then .DRUM_HIT_HEAD else .DRUM_HIT_RIM := by
  unfold classify
  rw [hh, hr]
  simp

/-- For 16-bit `maxv` and a non-zero `minv` the shift of `ratio_q15` does not
wrap: the result is the integer quotient. -/
theorem ratio_q15_exact (maxv minv : Nat) (hm : maxv < 65536) (hz : 0 < minv) :
    ratio_q15 maxv minv = maxv * 32768 / minv := by
  unfold ratio_q15 U32_MOD
  rw [if_neg (by omega), Nat.mod_eq_of_lt (by omega)]

/-- A closing call returns the event built at lines 66-96. -/
theorem closing_call_event (st : drum_trigger_state_t) (cfg : drum_trigger_cfg_t)
    (h r now : Nat) (ha : st.group_active = true)
    (hp : (drum_trigger_update st cfg h r now).1.group_active = false) :
    (drum_trigger_update st cfg h r now).2 =
      { kind := final_kind st cfg h r
        peak_head := u16_max st.peak_head h
        peak_rim := u16_max st.peak_rim r
        t_ms := now } := by
  have hc : close_cond st cfg h r now = true := by
    rw [update_active_post st cfg h r now ha] at hp
    simpa using hp
  rw [update_active_close st cfg h r now ha hc]

/-- C3: when a window closes with `head_hit` and `rim_hit` both true, the event
peaks being 16-bit values and the smaller one non-zero, with
`dominant = max(peak_head, peak_rim)` and `secondary = min(peak_head, peak_rim)`:
the kind is `BOTH` if and only if `secondary >= min_secondary_for_both` and
`floor(dominant * 32768 / secondary) <= both_ratio_q15`; otherwise it is the
channel holding the larger peak (`HEAD` when `peak_head >= peak_rim`, else
`RIM`). With the configuration of `main` (thresholds 250/120, ratio 49152,
minimum secondary 300), Scenario B returns `BOTH` with peaks 500 and 480 and
Scenario C returns `HEAD`. -/
theorem C3_both_classification :
    (∀ (st : drum_trigger_state_t) (cfg : drum_trigger_cfg_t) (h r now : Nat),
      st.group_active = true →
      (drum_trigger_update st cfg h r now).1.group_active = false →
      head_hit st cfg h = true →
      rim_hit st cfg r = true →
      (drum_trigger_update st cfg h r now).2.peak_head < 65536 →
      (drum_trigger_update st cfg h r now).2.peak_rim < 65536 →
      0 < min (drum_trigger_update st cfg h r now).2.peak_head
        (drum_trigger_update st cfg h r now).2.peak_rim →
        ((drum_trigger_update st cfg h r now).2.kind = .DRUM_HIT_BOTH ↔
          (cfg.min_secondary_for_both ≤
              min (drum_trigger_update st cfg h r now).2.peak_head
                (drum_trigger_update st cfg h r now).2.peak_rim ∧
            max (drum_trigger_update st cfg h r now).2.peak_head
                (drum_trigger_update st cfg h r now).2.peak_rim * 32768 /
              min (drum_trigger_update st cfg h r now).2.peak_head
                (drum_trigger_update st cfg h r now).2.peak_rim ≤ cfg.both_ratio_q15)) ∧
        ((drum_trigger_update st cfg h r now).2.kind ≠ .DRUM_HIT_BOTH →
          (drum_trigger_update st cfg h r now).2.kind =
            if (drum_trigger_update st cfg h r now).2.peak_head ≥
                (drum_trigger_update st cfg h r now).2.peak_rim
            then .DRUM_HIT_HEAD else .DRUM_HIT_RIM)) ∧
    (events main_cfg drum_trigger_init scenario_B).getLast? =
      some { kind := .DRUM_HIT_BOTH, peak_head := 500, peak_rim := 480, t_ms := 105 } ∧
    (events main_cfg drum_trigger_init scenario_C).getLast? =
      some { kind := .DRUM_HIT_HEAD, peak_head := 500, peak_rim := 200, t_ms := 105 } := by
  refine ⟨?_, by decide, by decide⟩
  intro st cfg h r now ha hp hh hr
  rw [closing_call_event st cfg h r now ha hp]
  simp only
  generalize hph : u16_max st.peak_head h = ph
  generalize hpr : u16_max st.peak_rim r = pr
  intro b1 b2 hpos
  have hk : final_kind st cfg h r =
      if (decide ((if ph ≥ pr then pr else ph) ≥ cfg.min_secondary_for_both) &&
          decide (ratio_q15 (if ph ≥ pr then ph else pr) (if ph ≥ pr then pr else ph)
            ≤ cfg.both_ratio_q15)) = true then .DRUM_HIT_BOTH
      else if ph ≥ pr then .DRUM_HIT_HEAD else .DRUM_HIT_RIM := by
    unfold final_kind
    unfold head_hit at hh
    unfold rim_hit at hr
    rw [hph] at hh
    rw [hpr] at hr
    rw [hph, hpr]
    exact classify_both_hit cfg _ _ ph pr hh hr
  rw [hk]
  by_cases hge : ph ≥ pr
  · have hmax : max ph pr = ph := max_eq_left hge
    have hmin : min ph pr = pr := min_eq_right hge
    rw [hmin] at hpos
    simp only [hge, if_true, hmax, hmin, ratio_q15_exact ph pr b1 hpos]
    constructor
    · split_ifs with hc
      · simp only [Bool.and_eq_true, decide_eq_true_eq] at hc
        simpa using hc
      · simp only [Bool.and_eq_true, decide_eq_true_eq] at hc
        simpa using hc
    · split_ifs <;> simp
  · have hlt : ph < pr := Nat.lt_of_not_ge hge
    have hmax : max ph pr = pr := max_eq_right (Nat.le_of_lt hlt)
    have hmin : min ph pr = ph := min_eq_left (Nat.le_of_lt hlt)
    rw [hmin] at hpos
    simp only [hge, if_false, hmax, hmin, ratio_q15_exact pr ph b2 hpos]
    constructor
    · split_ifs with hc
      · simp only [Bool.and_eq_true, decide_eq_true_eq] at hc
        simpa using hc
      · simp only [Bool.and_eq_true, decide_eq_true_eq] at hc
        simpa using hc
    · split_ifs <;> simp

/-- Witness for C3 on the closing call of Scenario B: both channels are hit,
the peaks are 500 and 480, and the kind is `BOTH`. -/
theorem C3_both_classification_witness :
    head_hit (run main_cfg drum_trigger_init (scenario_B.take 5)) main_cfg 0 = true ∧
    rim_hit (run main_cfg drum_trigger_init (scenario_B.take 5)) main_cfg 0 = true ∧
    (drum_trigger_update (run main_cfg drum_trigger_init (scenario_B.take 5)) main_cfg
      0 0 105).2.kind = .DRUM_HIT_BOTH :=
  ⟨by decide, by decide,
    (C3_both_classification.1 (run main_cfg drum_trigger_init (scenario_B.take 5)) main_cfg
      0 0 105 (by decide) (by decide) (by decide) (by decide) (by decide) (by decide)
      (by decide)).1.mpr ⟨by decide, by decide⟩⟩

/-- A call from an idle state after which a window is open is the opening
call of lines 30-41. -/
theorem idle_open_state (st : drum_trigger_state_t) (cfg : drum_trigger_cfg_t)
    (h r now : Nat) (hi : st.group_active = false)
    (hp : (drum_trigger_update st cfg h r now).1.group_active = true) :
    (head_start st cfg h now || rim_start st cfg r now) = true ∧
    drum_trigger_update st cfg h r now =
      ({ st with
          group_active := true
          group_start_ms := now
          peak_head := h
          peak_rim := r
          seen_high_head := decide (h ≥ cfg.th_high_head)
          seen_high_rim := decide (r ≥ cfg.th_high_rim)
          last_above_low_head_ms := now
          last_above_low_rim_ms := now }, no_event now) := by
  cases hs : (head_start st cfg h now || rim_start st cfg r now)
  · rw [update_idle_quiet st cfg h r now hi hs] at hp
    rw [hi] at hp; cases hp
  · exact ⟨rfl, update_idle_open st cfg h r now hi hs⟩

/-- While every call keeps the window open, the peaks are the running maxima of
the readings, a set `seen_high_head` flag stays set, a clear `seen_high_rim`
flag stays clear when no rim reading reaches the high threshold (and likewise
with the channels exchanged), and `group_start_ms` and both retrigger locks do
not change. -/
theorem keeps_open_fields (cfg : drum_trigger_cfg_t) (xs : List Sample) :
    ∀ st : drum_trigger_state_t, st.group_active = true → keeps_open cfg st xs = true →
      (run cfg st xs).peak_head = max st.peak_head (max_adc_head xs) ∧
      (run cfg st xs).peak_rim = max st.peak_rim (max_adc_rim xs) ∧
      (st.seen_high_head = true → (run cfg st xs).seen_high_head = true) ∧
      (st.seen_high_rim = true → (run cfg st xs).seen_high_rim = true) ∧
      ((∀ x ∈ xs, x.adc_head < cfg.th_high_head) → st.seen_high_head = false →
        (run cfg st xs).seen_high_head = false) ∧
      ((∀ x ∈ xs, x.adc_rim < cfg.th_high_rim) → st.seen_high_rim = false →
        (run cfg st xs).seen_high_rim = false) ∧
      (run cfg st xs).group_start_ms = st.group_start_ms ∧
      (run cfg st xs).last_hit_head_ms = st.last_hit_head_ms ∧
      (run cfg st xs).last_hit_rim_ms = st.last_hit_rim_ms := by
  induction xs with
  | nil => intro st _ _; simp [run, max_adc_head, max_adc_rim]
  | cons x xs ih =>
    intro st ha hk
    simp only [keeps_open, Bool.and_eq_true] at hk
    obtain ⟨h1, h2⟩ := hk
    have hc : close_cond st cfg x.adc_head x.adc_rim x.now_ms = false := by
      have hp := update_active_post st cfg x.adc_head x.adc_rim x.now_ms ha
      unfold step at h1
      rw [h1] at hp
      cases hcc : close_cond st cfg x.adc_head x.adc_rim x.now_ms
      · rfl
      · rw [hcc] at hp; simp at hp
    have hs : (step cfg st x).1 =
        { st with
          peak_head := u16_max st.peak_head x.adc_head
          peak_rim := u16_max st.peak_rim x.adc_rim
          seen_high_head := seen_head_now st cfg x.adc_head
          seen_high_rim := seen_rim_now st cfg x.adc_rim
          last_above_low_head_ms :=
            if x.adc_head ≥ cfg.th_low_head then x.now_ms else st.last_above_low_head_ms
          last_above_low_rim_ms :=
            if x.adc_rim ≥ cfg.th_low_rim then x.now_ms else st.last_above_low_rim_ms } := by
      unfold step
      rw [update_active_keep st cfg _ _ _ ha hc]
    obtain ⟨i1, i2, i3, i4, i5, i6, i7, i8, i9⟩ := ih (step cfg st x).1 h1 h2
    simp only [run]
    rw [i1, i2, i7, i8, i9]
    rw [hs] at i3 i4 i5 i6 ⊢
    simp only [u16_max_eq_max, max_adc_head, max_adc_rim] at i3 i4 i5 i6 ⊢
    refine ⟨by rw [max_assoc], by rw [max_assoc], ?_, ?_, ?_, ?_, by trivial, by trivial, by trivial⟩
    · intro hh
      apply i3
      simp [seen_head_now, hh]
    · intro hh
      apply i4
      simp [seen_rim_now, hh]
    · intro hall hh
      apply i5 (fun y hy => hall y (List.mem_cons_of_mem _ hy))
      have := hall x (List.mem_cons_self _ _)
      simp only [seen_head_now, hh]
      rw [if_neg (by omega)]
    · intro hall hh
      apply i6 (fun y hy => hall y (List.mem_cons_of_mem _ hy))
      have := hall x (List.mem_cons_self _ _)
      simp only [seen_rim_now, hh]
      rw [if_neg (by omega)]

/-- With the head hit and the rim not hit the classification is `HEAD`. -/
theorem classify_head_only (cfg : drum_trigger_cfg_t) (sh sr : Bool) (ph pr : Nat)
    (hh : (sh && decide (ph ≥ cfg.th_high_head)) = true)
    (hr : (sr && decide (pr ≥ cfg.th_high_rim)) = false) :
    classify cfg sh sr ph pr = .DRUM_HIT_HEAD := by
  unfold classify
  rw [hh, hr]
  simp

theorem max_adc_head_append (xs ys : List Sample) :
    max_adc_head (xs ++ ys) = max (max_adc_head xs) (max_adc_head ys) := by
  induction xs with
  | nil => simp [max_adc_head]
  | cons x xs ih => simp [max_adc_head, ih, max_assoc]

theorem max_adc_rim_append (xs ys : List Sample) :
    max_adc_rim (xs ++ ys) = max (max_adc_rim xs) (max_adc_rim ys) := by
  induction xs with
  | nil => simp [max_adc_rim]
  | cons x xs ih => simp [max_adc_rim, ih, max_assoc]

/-- The event, the kind inputs and the locks of the closing call `z` of a window
opened by `a` from the idle state `s0` and kept open by `mid`. -/
theorem window_close_event (cfg : drum_trigger_cfg_t) (s0 : drum_trigger_state_t) (a : Sample)
    (mid : List Sample) (z : Sample)
    (hi : s0.group_active = false)
    (ho : (step cfg s0 a).1.group_active = true)
    (hk : keeps_open cfg (step cfg s0 a).1 mid = true)
    (hz : (step cfg (run cfg (step cfg s0 a).1 mid) z).1.group_active = false) :
    (step cfg (run cfg (step cfg s0 a).1 mid) z).2 =
      { kind := final_kind (run cfg (step cfg s0 a).1 mid) cfg z.adc_head z.adc_rim
        peak_head := max_adc_head (a :: (mid ++ [z]))
        peak_rim := max_adc_rim (a :: (mid ++ [z]))
        t_ms := z.now_ms } := by
  obtain ⟨_, hopen⟩ := idle_open_state s0 cfg a.adc_head a.adc_rim a.now_ms hi ho
  have hs1 : (step cfg s0 a).1.peak_head = a.adc_head ∧ (step cfg s0 a).1.peak_rim = a.adc_rim := by
    show (drum_trigger_update s0 cfg a.adc_head a.adc_rim a.now_ms).1.peak_head = _ ∧
      (drum_trigger_update s0 cfg a.adc_head a.adc_rim a.now_ms).1.peak_rim = _
    rw [hopen]; exact ⟨rfl, rfl⟩
  obtain ⟨i1, i2, -⟩ := keeps_open_fields cfg mid _ ho hk
  have hact := (keeps_open_spec cfg mid _ ho hk).2.2
  have hz2 : (drum_trigger_update (run cfg (step cfg s0 a).1 mid) cfg
      z.adc_head z.adc_rim z.now_ms).1.group_active = false := hz
  show (drum_trigger_update (run cfg (step cfg s0 a).1 mid) cfg
      z.adc_head z.adc_rim z.now_ms).2 = _
  rw [closing_call_event _ cfg _ _ _ hact hz2, i1, i2, hs1.1, hs1.2]
  simp [u16_max_eq_max, max_adc_head, max_adc_rim, max_adc_head_append, max_adc_rim_append,
    max_assoc]

/-- The `seen_high` flags and the locks right after the opening call. -/
theorem idle_open_flags (st : drum_trigger_state_t) (cfg : drum_trigger_cfg_t) (a : Sample)
    (hi : st.group_active = false) (hp : (step cfg st a).1.group_active = true) :
    (step cfg st a).1.seen_high_head = decide (a.adc_head ≥ cfg.th_high_head) ∧
    (step cfg st a).1.seen_high_rim = decide (a.adc_rim ≥ cfg.th_high_rim) ∧
    (step cfg st a).1.peak_head = a.adc_head ∧
    (step cfg st a).1.peak_rim = a.adc_rim ∧
    (step cfg st a).1.group_start_ms = a.now_ms ∧
    (step cfg st a).1.last_hit_head_ms = st.last_hit_head_ms ∧
    (step cfg st a).1.last_hit_rim_ms = st.last_hit_rim_ms := by
  obtain ⟨_, hopen⟩ := idle_open_state st cfg a.adc_head a.adc_rim a.now_ms hi hp
  show (drum_trigger_update st cfg a.adc_head a.adc_rim a.now_ms).1.seen_high_head = _ ∧
    (drum_trigger_update st cfg a.adc_head a.adc_rim a.now_ms).1.seen_high_rim = _ ∧
    (drum_trigger_update st cfg a.adc_head a.adc_rim a.now_ms).1.peak_head = _ ∧
    (drum_trigger_update st cfg a.adc_head a.adc_rim a.now_ms).1.peak_rim = _ ∧
    (drum_trigger_update st cfg a.adc_head a.adc_rim a.now_ms).1.group_start_ms = _ ∧
    (drum_trigger_update st cfg a.adc_head a.adc_rim a.now_ms).1.last_hit_head_ms = _ ∧
    (drum_trigger_update st cfg a.adc_head a.adc_rim a.now_ms).1.last_hit_rim_ms = _
  rw [hopen]
  exact ⟨rfl, rfl, rfl, rfl, rfl, rfl, rfl⟩

/-- In a window opened by a head reading at or above `th_high_head` whose rim
readings all stay below `th_high_rim`, the closing call classifies `HEAD`. -/
theorem window_head_only_kind (cfg : drum_trigger_cfg_t) (s0 : drum_trigger_state_t) (a : Sample)
    (mid : List Sample) (z : Sample)
    (hi : s0.group_active = false)
    (ho : (step cfg s0 a).1.group_active = true)
    (hk : keeps_open cfg (step cfg s0 a).1 mid = true)
    (hh : a.adc_head ≥ cfg.th_high_head)
    (hr : ∀ x ∈ a :: (mid ++ [z]), x.adc_rim < cfg.th_high_rim) :
    final_kind (run cfg (step cfg s0 a).1 mid) cfg z.adc_head z.adc_rim = .DRUM_HIT_HEAD := by
  obtain ⟨f1, f2, f3, _, _, _, _⟩ := idle_open_flags s0 cfg a hi ho
  obtain ⟨i1, _, i3, _, _, i6, _, _, _⟩ := keeps_open_fields cfg mid _ ho hk
  have hra : a.adc_rim < cfg.th_high_rim := hr a (List.mem_cons_self _ _)
  have hrz : z.adc_rim < cfg.th_high_rim :=
    hr z (List.mem_cons_of_mem _ (List.mem_append_right _ (List.mem_singleton_self _)))
  have hrm : ∀ x ∈ mid, x.adc_rim < cfg.th_high_rim :=
    fun x hx => hr x (List.mem_cons_of_mem _ (List.mem_append_left _ hx))
  have sh : (run cfg (step cfg s0 a).1 mid).seen_high_head = true :=
    i3 (by rw [f1]; simpa using hh)
  have sr : (run cfg (step cfg s0 a).1 mid).seen_high_rim = false :=
    i6 hrm (by rw [f2]; simpa using hra)
  unfold final_kind
  apply classify_head_only
  · simp only [seen_head_now, sh, ite_self, Bool.true_and, decide_eq_true_eq]
    have := u16_max_ge_left (run cfg (step cfg s0 a).1 mid).peak_head z.adc_head
    rw [i1, f3] at this
    have h2 : a.adc_head ≤ max a.adc_head (max_adc_head mid) := le_max_left _ _
    rw [i1, f3]
    omega
  · simp only [seen_rim_now, sr]
    rw [if_neg (by omega)]
    rfl

/-- C4: for every window opened from an idle state by a head reading at or
above `th_high_head` (opening call `a`, calls `mid` that keep it open, closing
call `z`) in which every rim reading is below `th_high_rim`, the closing call
returns kind `HEAD` with `peak_head` the largest head reading and `peak_rim` the
largest rim reading of the calls of the window. Scenario A with the
configuration of `main` (thresholds 250/120, scan 2, release 4, timeout 30)
from the zero-initialised state: the calls at 100 to 104 return no event and
the call at 105, the first one 4 ms after the last above-low sample at 101,
returns `HEAD` with peaks 400 and 50. -/
theorem C4_head_only_window :
    (∀ (cfg : drum_trigger_cfg_t) (s0 : drum_trigger_state_t) (a : Sample)
      (mid : List Sample) (z : Sample),
      s0.group_active = false →
      (step cfg s0 a).1.group_active = true →
      keeps_open cfg (step cfg s0 a).1 mid = true →
      (step cfg (run cfg (step cfg s0 a).1 mid) z).1.group_active = false →
      a.adc_head ≥ cfg.th_high_head →
      (∀ x ∈ a :: (mid ++ [z]), x.adc_rim < cfg.th_high_rim) →
        (step cfg (run cfg (step cfg s0 a).1 mid) z).2.kind = .DRUM_HIT_HEAD ∧
        (step cfg (run cfg (step cfg s0 a).1 mid) z).2.peak_head
          = max_adc_head (a :: (mid ++ [z])) ∧
        (step cfg (run cfg (step cfg s0 a).1 mid) z).2.peak_rim
          = max_adc_rim (a :: (mid ++ [z]))) ∧
    events main_cfg drum_trigger_init scenario_A =
      [no_event 100, no_event 101, no_event 102, no_event 103, no_event 104,
        { kind := .DRUM_HIT_HEAD, peak_head := 400, peak_rim := 50, t_ms := 105 }] := by
  refine ⟨?_, by decide⟩
  intro cfg s0 a mid z hi ho hk hz hh hr
  rw [window_close_event cfg s0 a mid z hi ho hk hz]
  exact ⟨window_head_only_kind cfg s0 a mid z hi ho hk hh hr, rfl, rfl⟩

/-- Witness for C4 on Scenario A. -/
theorem C4_head_only_window_witness :
    (step main_cfg (run main_cfg (step main_cfg drum_trigger_init ⟨300, 50, 100⟩).1
        [⟨400, 50, 101⟩, ⟨0, 50, 102⟩, ⟨0, 50, 103⟩, ⟨0, 50, 104⟩]) ⟨0, 50, 105⟩).2.kind
      = .DRUM_HIT_HEAD ∧
    (step main_cfg (run main_cfg (step main_cfg drum_trigger_init ⟨300, 50, 100⟩).1
        [⟨400, 50, 101⟩, ⟨0, 50, 102⟩, ⟨0, 50, 103⟩, ⟨0, 50, 104⟩]) ⟨0, 50, 105⟩).2.peak_head
      = max_adc_head (⟨300, 50, 100⟩ ::
          ([⟨400, 50, 101⟩, ⟨0, 50, 102⟩, ⟨0, 50, 103⟩, ⟨0, 50, 104⟩] ++ [⟨0, 50, 105⟩])) ∧
    (step main_cfg (run main_cfg (step main_cfg drum_trigger_init ⟨300, 50, 100⟩).1
        [⟨400, 50, 101⟩, ⟨0, 50, 102⟩, ⟨0, 50, 103⟩, ⟨0, 50, 104⟩]) ⟨0, 50, 105⟩).2.peak_rim
      = max_adc_rim (⟨300, 50, 100⟩ ::
          ([⟨400, 50, 101⟩, ⟨0, 50, 102⟩, ⟨0, 50, 103⟩, ⟨0, 50, 104⟩] ++ [⟨0, 50, 105⟩])) :=
  C4_head_only_window.1 main_cfg drum_trigger_init ⟨300, 50, 100⟩
    [⟨400, 50, 101⟩, ⟨0, 50, 102⟩, ⟨0, 50, 103⟩, ⟨0, 50, 104⟩] ⟨0, 50, 105⟩
    (by decide) (by decide) (by decide) (by decide) (by decide) (by decide)

/-- The subtraction of `elapsed` is the difference of the two timestamps modulo
`2^32`. -/
theorem u32_sub_eq_int_emod (a b : Nat) :
    ((u32_sub a b : Nat) : Int) = ((a : Int) - (b : Int)) % 4294967296 := by
  unfold u32_sub U32_MOD
  omega

/-- `elapsed` is false exactly when the modular difference is below `dt`. -/
theorem elapsed_eq_false_iff (now since dt : Nat) :
    elapsed now since dt = false ↔ u32_sub now since < dt := by
  unfold elapsed
  simp

/-- `elapsed` is true exactly when the modular difference is at least `dt`. -/
theorem elapsed_eq_true_iff (now since dt : Nat) :
    elapsed now since dt = true ↔ dt ≤ u32_sub now since := by
  unfold elapsed
  simp

/-- C5: retrigger suppression. In an idle state, at a timestamp with
`(now - last_hit_head_ms) mod 2^32 < retrigger_head_ms`, no head reading (in
particular none at or above `th_high_head`) opens a window on the head channel:
whenever the rim channel is not itself eligible (rim reading below
`th_high_rim`, or `(now - last_hit_rim_ms) mod 2^32 < retrigger_rim_ms`), the call
returns kind `NONE` with both peaks 0 and leaves the state unchanged. The same
holds with the two channels exchanged. -/
theorem C5_retrigger_suppression :
    (∀ (st : drum_trigger_state_t) (cfg : drum_trigger_cfg_t) (h r now : Nat),
      st.group_active = false →
      u32_sub now st.last_hit_head_ms < cfg.retrigger_head_ms →
      (r < cfg.th_high_rim ∨ u32_sub now st.last_hit_rim_ms < cfg.retrigger_rim_ms) →
        drum_trigger_update st cfg h r now =
          (st, { kind := .DRUM_HIT_NONE, peak_head := 0, peak_rim := 0, t_ms := now })) ∧
    (∀ (st : drum_trigger_state_t) (cfg : drum_trigger_cfg_t) (h r now : Nat),
      st.group_active = false →
      u32_sub now st.last_hit_rim_ms < cfg.retrigger_rim_ms →
      (h < cfg.th_high_head ∨ u32_sub now st.last_hit_head_ms < cfg.retrigger_head_ms) →
        drum_trigger_update st cfg h r now =
          (st, { kind := .DRUM_HIT_NONE, peak_head := 0, peak_rim := 0, t_ms := now })) := by
  constructor
  · intro st cfg h r now hi hlock hrim
    apply update_idle_quiet st cfg h r now hi
    have e1 : head_start st cfg h now = false := by
      unfold head_start
      rw [(elapsed_eq_false_iff _ _ _).mpr hlock]; rfl
    have e2 : rim_start st cfg r now = false := by
      unfold rim_start
      rcases hrim with hlt | hlk
      · have : decide (r ≥ cfg.th_high_rim) = false := by simpa using hlt
        rw [this]; simp
      · rw [(elapsed_eq_false_iff _ _ _).mpr hlk]; rfl
    rw [e1, e2]; rfl
  · intro st cfg h r now hi hlock hhead
    apply update_idle_quiet st cfg h r now hi
    have e2 : rim_start st cfg r now = false := by
      unfold rim_start
      rw [(elapsed_eq_false_iff _ _ _).mpr hlock]; rfl
    have e1 : head_start st cfg h now = false := by
      unfold head_start
      rcases hhead with hlt | hlk
      · have : decide (h ≥ cfg.th_high_head) = false := by simpa using hlt
        rw [this]; simp
      · rw [(elapsed_eq_false_iff _ _ _).mpr hlk]; rfl
    rw [e1, e2]; rfl

/-- Witness for C5: after the `HEAD` event of Scenario A at 105, a head reading
of 400 at 110 (5 ms later, retrigger 18 ms) with the rim at 50 opens nothing;
and symmetrically for a rim lock set at 105. -/
theorem C5_retrigger_suppression_witness :
    drum_trigger_update (run main_cfg drum_trigger_init scenario_A) main_cfg 400 50 110 =
      (run main_cfg drum_trigger_init scenario_A,
        { kind := .DRUM_HIT_NONE, peak_head := 0, peak_rim := 0, t_ms := 110 }) ∧
    drum_trigger_update { drum_trigger_init with last_hit_rim_ms := 105 } main_cfg 50 400 110 =
      ({ drum_trigger_init with last_hit_rim_ms := 105 },
        { kind := .DRUM_HIT_NONE, peak_head := 0, peak_rim := 0, t_ms := 110 }) :=
  ⟨C5_retrigger_suppression.1 (run main_cfg drum_trigger_init scenario_A) main_cfg 400 50 110
      (by decide) (by decide) (Or.inl (by decide)),
    C5_retrigger_suppression.2 { drum_trigger_init with last_hit_rim_ms := 105 } main_cfg
      50 400 110 (by decide) (by decide) (Or.inl (by decide))⟩

/-- The modular difference recovers a true duration below `2^32`. -/
theorem u32_sub_add_mod (t d : Nat) (hd : d < U32_MOD) :
    u32_sub ((t + d) % U32_MOD) t = d := by
  unfold u32_sub U32_MOD at *
  omega

/-- C6: safety timeout. For every state with an open window and all readings
(whether or not they ever drop below the low thresholds), a call with
`(now - group_start_ms) mod 2^32 >= max_group_ms` closes the window. So a window
opened by a call `a` at `T0 = a.now_ms` and still open after the calls `mid` is
closed by a call made at `(T0 + d) mod 2^32` for a duration
`max_group_ms <= d < 2^32`: it is no longer open after the first call made at or
after `T0 + max_group_ms`. -/
theorem C6_safety_timeout :
    (∀ (st : drum_trigger_state_t) (cfg : drum_trigger_cfg_t) (h r now : Nat),
      st.group_active = true →
      cfg.max_group_ms ≤ u32_sub now st.group_start_ms →
        (drum_trigger_update st cfg h r now).1.group_active = false) ∧
    (∀ (cfg : drum_trigger_cfg_t) (s0 : drum_trigger_state_t) (a : Sample)
      (mid : List Sample) (z : Sample) (d : Nat),
      s0.group_active = false →
      (step cfg s0 a).1.group_active = true →
      keeps_open cfg (step cfg s0 a).1 mid = true →
      cfg.max_group_ms ≤ d → d < U32_MOD →
      z.now_ms = (a.now_ms + d) % U32_MOD →
        (step cfg (run cfg (step cfg s0 a).1 mid) z).1.group_active = false) := by
  have key : ∀ (st : drum_trigger_state_t) (cfg : drum_trigger_cfg_t) (h r now : Nat),
      st.group_active = true → cfg.max_group_ms ≤ u32_sub now st.group_start_ms →
        (drum_trigger_update st cfg h r now).1.group_active = false := by
    intro st cfg h r now ha ht
    rw [update_active_post st cfg h r now ha]
    have : close_cond st cfg h r now = true := by
      unfold close_cond
      rw [(elapsed_eq_true_iff now st.group_start_ms cfg.max_group_ms).mpr ht]
      simp
    rw [this]; rfl
  refine ⟨key, ?_⟩
  intro cfg s0 a mid z d hi ho hk hd1 hd2 hz
  obtain ⟨_, _, _, _, f5, _, _⟩ := idle_open_flags s0 cfg a hi ho
  obtain ⟨_, _, _, _, _, _, i7, _, _⟩ := keeps_open_fields cfg mid _ ho hk
  have hact := (keeps_open_spec cfg mid _ ho hk).2.2
  apply key _ cfg z.adc_head z.adc_rim z.now_ms hact
  rw [i7, f5, hz, u32_sub_add_mod a.now_ms d hd2]
  exact hd1

/-- Witness for C6: a window opened at `2^32 - 10` whose two readings stay at
400 is closed by the call made 30 ms later, at timestamp 20 after the
rollover. -/
theorem C6_safety_timeout_witness :
    (drum_trigger_update (step main_cfg drum_trigger_init ⟨400, 400, 4294967286⟩).1 main_cfg
      400 400 20).1.group_active = false ∧
    (step main_cfg (run main_cfg (step main_cfg drum_trigger_init ⟨400, 400, 4294967286⟩).1
      [⟨400, 400, 4294967290⟩, ⟨400, 400, 5⟩]) ⟨400, 400, 20⟩).1.group_active = false :=
  ⟨C6_safety_timeout.1 (step main_cfg drum_trigger_init ⟨400, 400, 4294967286⟩).1 main_cfg
      400 400 20 (by decide) (by decide),
    C6_safety_timeout.2 main_cfg drum_trigger_init ⟨400, 400, 4294967286⟩
      [⟨400, 400, 4294967290⟩, ⟨400, 400, 5⟩] ⟨400, 400, 20⟩ 30
      (by decide) (by decide) (by decide) (by decide) (by decide) (by decide)⟩

/-! ### The maximum of line 56 and the rollover

`u32_max` is called at line 56 on the two `last_above_low` timestamps and is
defined in no file under `src/`. The lemmas of this section record what depends
on its body: with the numeric maximum modelled above, a wrapped and an
unwrapped timestamp are compared as plain numbers; every other step of a call
is invariant under a shift of the timestamps. -/

/-- With `u32_max` the numeric maximum: the state after `held_head_calls` has an
open window started at 100 with the head last above low at 104 and the rim at
100. A call at 115 with the head still at 400 keeps the window open and returns
`NONE`. The same state with every timestamp advanced by `2^32 - 110` (window
started at `2^32 - 10`), called at `(115 + 2^32 - 110) mod 2^32 = 5` with the same
readings, closes the window and returns `HEAD`: `u32_max` compares the wrapped
`last_above_low_head_ms = 5` with the unwrapped `last_above_low_rim_ms = 2^32 - 10`
as plain numbers, so the release test measures from the older timestamp. The
shifted state is also the one the detector reaches by itself on
`held_head_calls_wrapped` up to the two retrigger locks, which this call does
not read. -/
theorem numeric_max_shifted_call_diverges :
    (run main_cfg drum_trigger_init held_head_calls).group_active = true ∧
    drum_trigger_update (run main_cfg drum_trigger_init held_head_calls) main_cfg 400 0 115 =
      ({ group_active := true, group_start_ms := 100, peak_head := 400, peak_rim := 0,
         last_above_low_head_ms := 115, last_above_low_rim_ms := 100,
         last_hit_head_ms := 0, last_hit_rim_ms := 0,
         seen_high_head := true, seen_high_rim := false },
        { kind := .DRUM_HIT_NONE, peak_head := 0, peak_rim := 0, t_ms := 115 }) ∧
    (115 + 4294967186) % U32_MOD = 5 ∧
    drum_trigger_update
        (shift_state 4294967186 (run main_cfg drum_trigger_init held_head_calls))
        main_cfg 400 0 ((115 + 4294967186) % U32_MOD) =
      ({ group_active := false, group_start_ms := 4294967286, peak_head := 0, peak_rim := 0,
         last_above_low_head_ms := 5, last_above_low_rim_ms := 4294967286,
         last_hit_head_ms := 5, last_hit_rim_ms := 4294967186,
         seen_high_head := false, seen_high_rim := false },
        { kind := .DRUM_HIT_HEAD, peak_head := 400, peak_rim := 0, t_ms := 5 }) ∧
    (drum_trigger_update
        (shift_state 4294967186 (run main_cfg drum_trigger_init held_head_calls))
        main_cfg 400 0 ((115 + 4294967186) % U32_MOD)).1 ≠
      shift_state 4294967186
        (drum_trigger_update (run main_cfg drum_trigger_init held_head_calls)
          main_cfg 400 0 115).1 ∧
    run main_cfg drum_trigger_init held_head_calls_wrapped =
      { shift_state 4294967186 (run main_cfg drum_trigger_init held_head_calls) with
        last_hit_head_ms := 0, last_hit_rim_ms := 0 } := by
  decide

/-- With `u32_max` the numeric maximum: from the zero-initialised state with the
configuration of `main`, calls at `2^32 - 10` and `2^32 - 6` open and hold a window
on a head reading of 400; the call at 5, after the rollover, still reads 400 on
the head. That call closes the window although the timeout clause is false
(`(5 - group_start_ms) mod 2^32 = 15 < 30`) and although the head is at or above
its low threshold at this very call: `(now - last_above_low_head_ms) mod 2^32 = 0`,
below `release_ms = 4`. -/
theorem numeric_max_close_without_head_quiet :
    (run main_cfg drum_trigger_init held_head_calls_wrapped).group_active = true ∧
    (step main_cfg (run main_cfg drum_trigger_init held_head_calls_wrapped)
      ⟨400, 0, 5⟩).1.group_active = false ∧
    (step main_cfg (run main_cfg drum_trigger_init held_head_calls_wrapped)
      ⟨400, 0, 5⟩).2.kind = .DRUM_HIT_HEAD ∧
    u32_sub 5 (run main_cfg drum_trigger_init held_head_calls_wrapped).group_start_ms = 15 ∧
    elapsed 5 (run main_cfg drum_trigger_init held_head_calls_wrapped).group_start_ms
      main_cfg.max_group_ms = false ∧
    main_cfg.th_low_head ≤ 400 ∧
    u32_sub 5 (step main_cfg (run main_cfg drum_trigger_init held_head_calls_wrapped)
      ⟨400, 0, 5⟩).1.last_above_low_head_ms = 0 ∧
    ¬ (main_cfg.release_ms ≤
      u32_sub 5 (step main_cfg (run main_cfg drum_trigger_init held_head_calls_wrapped)
        ⟨400, 0, 5⟩).1.last_above_low_head_ms) := by
  decide

/-- The modular difference of two timestamps does not change when both are
advanced by `k` modulo `2^32`. -/
theorem u32_sub_shift (now t k : Nat) :
    u32_sub ((now + k) % U32_MOD) ((t + k) % U32_MOD) = u32_sub now t := by
  unfold u32_sub U32_MOD
  omega

/-- The test `elapsed` does not change when both timestamps are advanced by `k`
modulo `2^32`. -/
theorem elapsed_shift (now t dt k : Nat) :
    elapsed ((now + k) % U32_MOD) ((t + k) % U32_MOD) dt = elapsed now t dt := by
  unfold elapsed
  rw [u32_sub_shift]

/-- Shift invariance of one call, up to the maximum of line 56: for every state,
configuration, readings, timestamp and offset `k`, if (when a window is open)
taking `u32_max` of the two `last_above_low` timestamps as updated by the call
commutes with advancing them by `k` modulo `2^32`, then the call on the shifted
state at the shifted timestamp returns the same kind and peaks and leaves the
shifted state of the unshifted call. -/
theorem shift_update_of_max_kept (st : drum_trigger_state_t) (cfg : drum_trigger_cfg_t)
    (h r now k : Nat)
    (hmax : st.group_active = true →
      u32_max
          (((if h ≥ cfg.th_low_head then now else st.last_above_low_head_ms) + k) % U32_MOD)
          (((if r ≥ cfg.th_low_rim then now else st.last_above_low_rim_ms) + k) % U32_MOD) =
        (u32_max (if h ≥ cfg.th_low_head then now else st.last_above_low_head_ms)
          (if r ≥ cfg.th_low_rim then now else st.last_above_low_rim_ms) + k) % U32_MOD) :
    (drum_trigger_update (shift_state k st) cfg h r ((now + k) % U32_MOD)).1 =
      shift_state k (drum_trigger_update st cfg h r now).1 ∧
    (drum_trigger_update (shift_state k st) cfg h r ((now + k) % U32_MOD)).2.kind =
      (drum_trigger_update st cfg h r now).2.kind ∧
    (drum_trigger_update (shift_state k st) cfg h r ((now + k) % U32_MOD)).2.peak_head =
      (drum_trigger_update st cfg h r now).2.peak_head ∧
    (drum_trigger_update (shift_state k st) cfg h r ((now + k) % U32_MOD)).2.peak_rim =
      (drum_trigger_update st cfg h r now).2.peak_rim := by
  cases ha : st.group_active
  · have ha2 : (shift_state k st).group_active = false := ha
    have hs2 : (head_start (shift_state k st) cfg h ((now + k) % U32_MOD) ||
        rim_start (shift_state k st) cfg r ((now + k) % U32_MOD)) =
        (head_start st cfg h now || rim_start st cfg r now) := by
      unfold head_start rim_start
      show (elapsed ((now + k) % U32_MOD) ((st.last_hit_head_ms + k) % U32_MOD) _ && _ ||
        elapsed ((now + k) % U32_MOD) ((st.last_hit_rim_ms + k) % U32_MOD) _ && _) = _
      rw [elapsed_shift, elapsed_shift]
    cases hs : (head_start st cfg h now || rim_start st cfg r now)
    · rw [update_idle_quiet st cfg h r now ha hs,
        update_idle_quiet (shift_state k st) cfg h r _ ha2 (hs2.trans hs)]
      exact ⟨rfl, rfl, rfl, rfl⟩
    · rw [update_idle_open st cfg h r now ha hs,
        update_idle_open (shift_state k st) cfg h r _ ha2 (hs2.trans hs)]
      exact ⟨rfl, rfl, rfl, rfl⟩
  · have ha2 : (shift_state k st).group_active = true := ha
    have e1 : (if h ≥ cfg.th_low_head then (now + k) % U32_MOD
        else (shift_state k st).last_above_low_head_ms) =
        ((if h ≥ cfg.th_low_head then now else st.last_above_low_head_ms) + k) % U32_MOD := by
      split <;> rfl
    have e2 : (if r ≥ cfg.th_low_rim then (now + k) % U32_MOD
        else (shift_state k st).last_above_low_rim_ms) =
        ((if r ≥ cfg.th_low_rim then now else st.last_above_low_rim_ms) + k) % U32_MOD := by
      split <;> rfl
    have hc2 : close_cond (shift_state k st) cfg h r ((now + k) % U32_MOD) =
        close_cond st cfg h r now := by
      unfold close_cond
      rw [e1, e2, hmax ha]
      show (elapsed ((now + k) % U32_MOD) ((st.group_start_ms + k) % U32_MOD) _ &&
          elapsed ((now + k) % U32_MOD) _ _ ||
        elapsed ((now + k) % U32_MOD) ((st.group_start_ms + k) % U32_MOD) _) = _
      rw [elapsed_shift, elapsed_shift, elapsed_shift]
    have hk : final_kind (shift_state k st) cfg h r = final_kind st cfg h r := rfl
    cases hc : close_cond st cfg h r now
    · rw [update_active_keep st cfg h r now ha hc,
        update_active_keep (shift_state k st) cfg h r _ ha2 (hc2.trans hc)]
      refine ⟨?_, rfl, rfl, rfl⟩
      simp only [shift_state] at e1 e2 ⊢
      rw [e1, e2]
      rfl
    · rw [update_active_close st cfg h r now ha hc,
        update_active_close (shift_state k st) cfg h r _ ha2 (hc2.trans hc)]
      refine ⟨?_, rfl, rfl, rfl⟩
      rw [hk]
      simp only [shift_state] at e1 e2 ⊢
      rw [e1, e2]
      cases (final_kind st cfg h r).has_head <;> cases (final_kind st cfg h r).has_rim <;> rfl

/-- A normal close away from the rollover: if a call closes a window with the
timeout clause false, at a 32-bit timestamp that neither `last_above_low`
timestamp exceeds as a plain number, then the minimum scan time has passed and
`release_ms` have passed since the last above-low sample on each channel
separately. -/
theorem release_quiet_of_no_wrap (st : drum_trigger_state_t) (cfg : drum_trigger_cfg_t)
    (h r now : Nat)
    (hc : close_cond st cfg h r now = true)
    (hto : elapsed now st.group_start_ms cfg.max_group_ms = false)
    (hn : now < U32_MOD)
    (h1 : st.last_above_low_head_ms ≤ now)
    (h2 : st.last_above_low_rim_ms ≤ now) :
    cfg.scan_min_ms ≤ u32_sub now st.group_start_ms ∧
    cfg.release_ms ≤
      u32_sub now (if h ≥ cfg.th_low_head then now else st.last_above_low_head_ms) ∧
    cfg.release_ms ≤
      u32_sub now (if r ≥ cfg.th_low_rim then now else st.last_above_low_rim_ms) := by
  unfold close_cond at hc
  rw [hto, Bool.or_false, Bool.and_eq_true, elapsed_eq_true_iff, elapsed_eq_true_iff] at hc
  obtain ⟨hscan, hrel⟩ := hc
  refine ⟨hscan, ?_, ?_⟩
  · revert hrel
    unfold u32_max u32_sub U32_MOD at *
    split_ifs <;> intro hrel <;> omega
  · revert hrel
    unfold u32_max u32_sub U32_MOD at *
    split_ifs <;> intro hrel <;> omega

/-- C9 (counterexample): Scenario D with thresholds 250/120 and a configuration
that closes only by the timeout. The head opens the window at 100 with a reading
of 250, stays at 249 afterwards, the release clause is false at every call and
the timeout closes the window at 130. The closing call returns `HEAD` with
`peak_head = 250`, not `NONE`, and sets `last_hit_head_ms` from 0 to 130. -/
theorem C9_scenario_D_not_none :
    (events scenario_D_cfg drum_trigger_init scenario_D).map (fun e => e.kind) =
      [.DRUM_HIT_NONE, .DRUM_HIT_NONE, .DRUM_HIT_NONE, .DRUM_HIT_NONE, .DRUM_HIT_HEAD] ∧
    (run scenario_D_cfg drum_trigger_init (scenario_D.take 4)).group_active = true ∧
    (run scenario_D_cfg drum_trigger_init (scenario_D.take 4)).last_hit_head_ms = 0 ∧
    elapsed 130 (run scenario_D_cfg drum_trigger_init (scenario_D.take 4)).group_start_ms
      scenario_D_cfg.max_group_ms = true ∧
    elapsed 130 130 scenario_D_cfg.release_ms = false ∧
    ¬ ((step scenario_D_cfg (run scenario_D_cfg drum_trigger_init (scenario_D.take 4))
          ⟨249, 0, 130⟩).2.kind = .DRUM_HIT_NONE) ∧
    (step scenario_D_cfg (run scenario_D_cfg drum_trigger_init (scenario_D.take 4))
        ⟨249, 0, 130⟩).2 =
      { kind := .DRUM_HIT_HEAD, peak_head := 250, peak_rim := 0, t_ms := 130 } ∧
    (step scenario_D_cfg (run scenario_D_cfg drum_trigger_init (scenario_D.take 4))
        ⟨249, 0, 130⟩).1.last_hit_head_ms = 130 ∧
    (step scenario_D_cfg (run scenario_D_cfg drum_trigger_init (scenario_D.take 4))
        ⟨249, 0, 130⟩).1.last_hit_head_ms ≠
      (run scenario_D_cfg drum_trigger_init (scenario_D.take 4)).last_hit_head_ms := by
  decide

theorem max_adc_head_le (xs : List Sample) (b : Nat) (h : ∀ x ∈ xs, x.adc_head < b) :
    max_adc_head xs ≤ b := by
  induction xs with
  | nil => simp [max_adc_head]
  | cons x xs ih =>
    have h1 := h x (List.mem_cons_self _ _)
    have h2 := ih (fun y hy => h y (List.mem_cons_of_mem _ hy))
    simp only [max_adc_head]
    exact max_le (Nat.le_of_lt h1) h2

/-- The state after a closing call. -/
theorem closing_call_state (st : drum_trigger_state_t) (cfg : drum_trigger_cfg_t)
    (h r now : Nat) (ha : st.group_active = true)
    (hp : (drum_trigger_update st cfg h r now).1.group_active = false) :
    (drum_trigger_update st cfg h r now).1.last_hit_head_ms =
        (if (final_kind st cfg h r).has_head then now else st.last_hit_head_ms) ∧
    (drum_trigger_update st cfg h r now).1.last_hit_rim_ms =
        (if (final_kind st cfg h r).has_rim then now else st.last_hit_rim_ms) ∧
    (drum_trigger_update st cfg h r now).1.peak_head = 0 ∧
    (drum_trigger_update st cfg h r now).1.peak_rim = 0 ∧
    (drum_trigger_update st cfg h r now).1.seen_high_head = false ∧
    (drum_trigger_update st cfg h r now).1.seen_high_rim = false := by
  have hc : close_cond st cfg h r now = true := by
    rw [update_active_post st cfg h r now ha] at hp
    simpa using hp
  rw [update_active_close st cfg h r now ha hc]
  exact ⟨rfl, rfl, rfl, rfl, rfl, rfl⟩

/-- C9 (amended): a window opened from an idle state by a head reading equal to
`th_high_head` with the rim below `th_high_rim`, whose later readings all stay
below the high thresholds on both channels, closes (by the timeout or
otherwise) with an event of kind `HEAD` and `peak_head = th_high_head`; the
closing call sets `last_hit_head_ms` to its timestamp and leaves
`last_hit_rim_ms` as it was before the window. -/
theorem C9_borderline_window_reports_head (cfg : drum_trigger_cfg_t)
    (s0 : drum_trigger_state_t) (a : Sample) (mid : List Sample) (z : Sample)
    (hi : s0.group_active = false)
    (ho : (step cfg s0 a).1.group_active = true)
    (hk : keeps_open cfg (step cfg s0 a).1 mid = true)
    (hz : (step cfg (run cfg (step cfg s0 a).1 mid) z).1.group_active = false)
    (hh : a.adc_head = cfg.th_high_head)
    (hr : a.adc_rim < cfg.th_high_rim)
    (hlow : ∀ x ∈ mid ++ [z], x.adc_head < cfg.th_high_head ∧ x.adc_rim < cfg.th_high_rim) :
    (step cfg (run cfg (step cfg s0 a).1 mid) z).2.kind = .DRUM_HIT_HEAD ∧
    (step cfg (run cfg (step cfg s0 a).1 mid) z).2.peak_head = cfg.th_high_head ∧
    (step cfg (run cfg (step cfg s0 a).1 mid) z).1.last_hit_head_ms = z.now_ms ∧
    (step cfg (run cfg (step cfg s0 a).1 mid) z).1.last_hit_rim_ms = s0.last_hit_rim_ms := by
  have hrim : ∀ x ∈ a :: (mid ++ [z]), x.adc_rim < cfg.th_high_rim := by
    intro x hx
    rcases List.mem_cons.mp hx with rfl | hx
    · exact hr
    · exact (hlow x hx).2
  have hkind := window_head_only_kind cfg s0 a mid z hi ho hk (by omega) hrim
  have hev := window_close_event cfg s0 a mid z hi ho hk hz
  have hact := (keeps_open_spec cfg mid _ ho hk).2.2
  obtain ⟨_, _, _, _, _, _, f7⟩ := idle_open_flags s0 cfg a hi ho
  obtain ⟨_, _, _, _, _, _, _, _, i9⟩ := keeps_open_fields cfg mid _ ho hk
  have hz2 : (drum_trigger_update (run cfg (step cfg s0 a).1 mid) cfg
      z.adc_head z.adc_rim z.now_ms).1.group_active = false := hz
  obtain ⟨c1, c2, -⟩ := closing_call_state _ cfg _ _ _ hact hz2
  rw [hkind] at c1 c2
  refine ⟨by rw [hev, hkind], ?_, ?_, ?_⟩
  · rw [hev]
    show max_adc_head (a :: (mid ++ [z])) = cfg.th_high_head
    have hb := max_adc_head_le (mid ++ [z]) cfg.th_high_head (fun x hx => (hlow x hx).1)
    simp only [max_adc_head, hh]
    exact max_eq_left hb
  · exact c1
  · show (drum_trigger_update (run cfg (step cfg s0 a).1 mid) cfg
      z.adc_head z.adc_rim z.now_ms).1.last_hit_rim_ms = _
    rw [c2, ← f7, ← i9]
    rfl

/-- Witness for the amended C9 on Scenario D. -/
theorem C9_borderline_window_reports_head_witness :
    (step scenario_D_cfg (run scenario_D_cfg (step scenario_D_cfg drum_trigger_init
        ⟨250, 0, 100⟩).1 [⟨249, 0, 105⟩, ⟨249, 0, 110⟩, ⟨249, 0, 120⟩]) ⟨249, 0, 130⟩).2.kind
      = .DRUM_HIT_HEAD ∧
    (step scenario_D_cfg (run scenario_D_cfg (step scenario_D_cfg drum_trigger_init
        ⟨250, 0, 100⟩).1 [⟨249, 0, 105⟩, ⟨249, 0, 110⟩, ⟨249, 0, 120⟩]) ⟨249, 0, 130⟩).2.peak_head
      = scenario_D_cfg.th_high_head ∧
    (step scenario_D_cfg (run scenario_D_cfg (step scenario_D_cfg drum_trigger_init
        ⟨250, 0, 100⟩).1 [⟨249, 0, 105⟩, ⟨249, 0, 110⟩, ⟨249, 0, 120⟩])
        ⟨249, 0, 130⟩).1.last_hit_head_ms = (⟨249, 0, 130⟩ : Sample).now_ms ∧
    (step scenario_D_cfg (run scenario_D_cfg (step scenario_D_cfg drum_trigger_init
        ⟨250, 0, 100⟩).1 [⟨249, 0, 105⟩, ⟨249, 0, 110⟩, ⟨249, 0, 120⟩])
        ⟨249, 0, 130⟩).1.last_hit_rim_ms = drum_trigger_init.last_hit_rim_ms :=
  C9_borderline_window_reports_head scenario_D_cfg drum_trigger_init ⟨250, 0, 100⟩
    [⟨249, 0, 105⟩, ⟨249, 0, 110⟩, ⟨249, 0, 120⟩] ⟨249, 0, 130⟩
    (by decide) (by decide) (by decide) (by decide) (by decide) (by decide) (by decide)

/-- C10: tie-break determinism. For every closing call in which `head_hit` and
`rim_hit` are both true, the two event peaks are equal 16-bit values and the
`BOTH` test fails (the common peak is below `min_secondary_for_both`, or the Q15
ratio 32768 of equal peaks exceeds `both_ratio_q15`), the returned kind is
`HEAD`. -/
theorem C10_tie_break_head (st : drum_trigger_state_t) (cfg : drum_trigger_cfg_t)
    (h r now : Nat)
    (ha : st.group_active = true)
    (hp : (drum_trigger_update st cfg h r now).1.group_active = false)
    (hh : head_hit st cfg h = true)
    (hr : rim_hit st cfg r = true)
    (heq : (drum_trigger_update st cfg h r now).2.peak_head =
      (drum_trigger_update st cfg h r now).2.peak_rim)
    (hb : (drum_trigger_update st cfg h r now).2.peak_head < 65536)
    (hfail : (drum_trigger_update st cfg h r now).2.peak_head < cfg.min_secondary_for_both ∨
      cfg.both_ratio_q15 < 32768) :
    (drum_trigger_update st cfg h r now).2.kind = .DRUM_HIT_HEAD := by
  rw [closing_call_event st cfg h r now ha hp] at heq hb hfail ⊢
  simp only at heq hb hfail ⊢
  unfold final_kind
  unfold head_hit at hh
  unfold rim_hit at hr
  rw [classify_both_hit cfg _ _ _ _ hh hr]
  rw [← heq] at *
  generalize u16_max st.peak_head h = p at *
  simp only [ge_iff_le, le_refl, if_true]
  have htest : (decide (p ≥ cfg.min_secondary_for_both) &&
      decide (ratio_q15 p p ≤ cfg.both_ratio_q15)) = false := by
    rcases hfail with hlt | hratio
    · have : decide (p ≥ cfg.min_secondary_for_both) = false := by simpa using hlt
      rw [this]; rfl
    · have hq : cfg.both_ratio_q15 < ratio_q15 p p := by
        by_cases hp0 : p = 0
        · subst hp0
          unfold ratio_q15
          simp only [if_true]
          omega
        · rw [ratio_q15_exact p p hb (Nat.pos_of_ne_zero hp0),
            Nat.mul_div_cancel_left _ (Nat.pos_of_ne_zero hp0)]
          exact hratio
      have : decide (ratio_q15 p p ≤ cfg.both_ratio_q15) = false := by simpa using hq
      rw [this]; simp
  rw [htest]
  simp

/-- Witness for C10: thresholds 250 on both channels, both peaks 280, below
`min_secondary_for_both = 300`; the closing call at 104 returns `HEAD`. -/
theorem C10_tie_break_head_witness :
    (drum_trigger_update
      (run main_cfg drum_trigger_init
        [⟨280, 280, 100⟩, ⟨0, 0, 101⟩, ⟨0, 0, 102⟩, ⟨0, 0, 103⟩])
      main_cfg 0 0 104).2.kind = .DRUM_HIT_HEAD :=
  C10_tie_break_head
    (run main_cfg drum_trigger_init [⟨280, 280, 100⟩, ⟨0, 0, 101⟩, ⟨0, 0, 102⟩, ⟨0, 0, 103⟩])
    main_cfg 0 0 104
    (by decide) (by decide) (by decide) (by decide) (by decide) (by decide)
    (Or.inl (by decide))

/-- The bit tests on each kind: `HEAD` and `BOTH` contain the head bit, `RIM`
and `BOTH` the rim bit. -/
theorem has_head_iff (k : drum_hit_kind_t) :
    (k.has_head = true ↔ k = .DRUM_HIT_HEAD ∨ k = .DRUM_HIT_BOTH) ∧
    (k.has_rim = true ↔ k = .DRUM_HIT_RIM ∨ k = .DRUM_HIT_BOTH) := by
  cases k <;> decide

/-- The two retrigger locks after any call. -/
theorem update_locks (st : drum_trigger_state_t) (cfg : drum_trigger_cfg_t) (h r now : Nat) :
    (drum_trigger_update st cfg h r now).1.last_hit_head_ms =
      (if (drum_trigger_update st cfg h r now).2.kind.has_head then now
        else st.last_hit_head_ms) ∧
    (drum_trigger_update st cfg h r now).1.last_hit_rim_ms =
      (if (drum_trigger_update st cfg h r now).2.kind.has_rim then now
        else st.last_hit_rim_ms) := by
  have n1 : drum_hit_kind_t.DRUM_HIT_NONE.has_head = false := by decide
  have n2 : drum_hit_kind_t.DRUM_HIT_NONE.has_rim = false := by decide
  cases ha : st.group_active
  · cases hs : (head_start st cfg h now || rim_start st cfg r now)
    · rw [update_idle_quiet st cfg h r now ha hs]
      simp [no_event, n1, n2]
    · rw [update_idle_open st cfg h r now ha hs]
      simp [no_event, n1, n2]
  · cases hc : close_cond st cfg h r now
    · rw [update_active_keep st cfg h r now ha hc]
      simp [no_event, n1, n2]
    · rw [update_active_close st cfg h r now ha hc]
      exact ⟨rfl, rfl⟩

/-- C11: retrigger lock update and frame. For every call of
`drum_trigger_update`, `last_hit_head_ms` after the call is `now_ms` if the
returned kind contains `HEAD` (is `HEAD` or `BOTH`) and is unchanged otherwise,
and `last_hit_rim_ms` after the call is `now_ms` if the returned kind contains
`RIM` (is `RIM` or `BOTH`) and is unchanged otherwise. In particular kind `HEAD`
leaves the rim lock, kind `RIM` leaves the head lock, and kind `NONE` leaves both
locks as they were, whatever the window saw. -/
theorem C11_lock_update_and_frame (st : drum_trigger_state_t) (cfg : drum_trigger_cfg_t)
    (h r now : Nat) :
    (drum_trigger_update st cfg h r now).1.last_hit_head_ms =
      (if (drum_trigger_update st cfg h r now).2.kind = .DRUM_HIT_HEAD ∨
          (drum_trigger_update st cfg h r now).2.kind = .DRUM_HIT_BOTH then now
        else st.last_hit_head_ms) ∧
    (drum_trigger_update st cfg h r now).1.last_hit_rim_ms =
      (if (drum_trigger_update st cfg h r now).2.kind = .DRUM_HIT_RIM ∨
          (drum_trigger_update st cfg h r now).2.kind = .DRUM_HIT_BOTH then now
        else st.last_hit_rim_ms) := by
  obtain ⟨l1, l2⟩ := update_locks st cfg h r now
  rw [l1, l2]
  generalize (drum_trigger_update st cfg h r now).2.kind = k
  have hk := has_head_iff k
  constructor
  · by_cases hb : k.has_head = true
    · rw [if_pos hb, if_pos (hk.1.mp hb)]
    · rw [if_neg hb, if_neg (fun hc => hb (hk.1.mpr hc))]
  · by_cases hb : k.has_rim = true
    · rw [if_pos hb, if_pos (hk.2.mp hb)]
    · rw [if_neg hb, if_neg (fun hc => hb (hk.2.mpr hc))]

/-- C12: peak monotonicity. For every call made while a window is open that
does not close it, `peak_head` after the call is the maximum of `peak_head`
before and the head reading, `peak_rim` after is the maximum of `peak_rim` before
and the rim reading, so neither peak decreases; and a `seen_high` flag that was
true before the call is true after it. -/
theorem C12_peak_monotonicity (st : drum_trigger_state_t) (cfg : drum_trigger_cfg_t)
    (h r now : Nat)
    (ha : st.group_active = true)
    (hp : (drum_trigger_update st cfg h r now).1.group_active = true) :
    (drum_trigger_update st cfg h r now).1.peak_head = max st.peak_head h ∧
    (drum_trigger_update st cfg h r now).1.peak_rim = max st.peak_rim r ∧
    st.peak_head ≤ (drum_trigger_update st cfg h r now).1.peak_head ∧
    st.peak_rim ≤ (drum_trigger_update st cfg h r now).1.peak_rim ∧
    (st.seen_high_head = true →
      (drum_trigger_update st cfg h r now).1.seen_high_head = true) ∧
    (st.seen_high_rim = true →
      (drum_trigger_update st cfg h r now).1.seen_high_rim = true) := by
  have hc : close_cond st cfg h r now = false := by
    rw [update_active_post st cfg h r now ha] at hp
    simpa using hp
  rw [update_active_keep st cfg h r now ha hc]
  simp only [u16_max_eq_max]
  refine ⟨by trivial, by trivial, le_max_left _ _, le_max_left _ _, ?_, ?_⟩
  · intro hs; simp [seen_head_now, hs]
  · intro hs; simp [seen_rim_now, hs]

/-- Witness for C12: in Scenario A the call at 101 (head 400) is made with the
window open and keeps it open; the head peak goes from 300 to 400. -/
theorem C12_peak_monotonicity_witness :
    (drum_trigger_update (run main_cfg drum_trigger_init (scenario_A.take 1)) main_cfg
      400 50 101).1.peak_head =
      max (run main_cfg drum_trigger_init (scenario_A.take 1)).peak_head 400 ∧
    (run main_cfg drum_trigger_init (scenario_A.take 1)).peak_head = 300 :=
  ⟨(C12_peak_monotonicity (run main_cfg drum_trigger_init (scenario_A.take 1)) main_cfg
      400 50 101 (by decide) (by decide)).1, by decide⟩

/-- One call, with any configuration, preserves `idle_inv`. -/
theorem idle_inv_update (st : drum_trigger_state_t) (cfg : drum_trigger_cfg_t) (h r now : Nat)
    (hinv : idle_inv st) : idle_inv (drum_trigger_update st cfg h r now).1 := by
  cases ha : st.group_active
  · cases hs : (head_start st cfg h now || rim_start st cfg r now)
    · rw [update_idle_quiet st cfg h r now ha hs]; exact hinv
    · rw [update_idle_open st cfg h r now ha hs]
      intro hcontra; simp at hcontra
  · cases hc : close_cond st cfg h r now
    · rw [update_active_keep st cfg h r now ha hc]
      intro hcontra
      simp [ha] at hcontra
    · rw [update_active_close st cfg h r now ha hc]
      intro _
      exact ⟨rfl, rfl, rfl, rfl⟩

theorem idle_inv_run_cfgs (cs : List (drum_trigger_cfg_t × Sample)) :
    ∀ st : drum_trigger_state_t, idle_inv st → idle_inv (run_cfgs st cs) := by
  induction cs with
  | nil => intro st hinv; exact hinv
  | cons c cs ih => intro st hinv; exact ih _ (idle_inv_update st c.1 _ _ _ hinv)

/-- C13: idle-state invariant. In every state reached from the zero-initialised
state by any sequence of calls, each with its own configuration, readings and
timestamp, `group_active = false` implies `peak_head = peak_rim = 0` and
`seen_high_head = seen_high_rim = false`. And every closing call (window open
before, closed after) from any state, whatever kind it returns, leaves
`group_active = false`, both `seen_high` flags false and both peaks 0. -/
theorem C13_idle_state_invariant :
    (∀ (cs : List (drum_trigger_cfg_t × Sample)),
      (run_cfgs drum_trigger_init cs).group_active = false →
        (run_cfgs drum_trigger_init cs).peak_head = 0 ∧
        (run_cfgs drum_trigger_init cs).peak_rim = 0 ∧
        (run_cfgs drum_trigger_init cs).seen_high_head = false ∧
        (run_cfgs drum_trigger_init cs).seen_high_rim = false) ∧
    (∀ (st : drum_trigger_state_t) (cfg : drum_trigger_cfg_t) (h r now : Nat),
      st.group_active = true →
      close_cond st cfg h r now = true →
        (drum_trigger_update st cfg h r now).1.group_active = false ∧
        (drum_trigger_update st cfg h r now).1.seen_high_head = false ∧
        (drum_trigger_update st cfg h r now).1.seen_high_rim = false ∧
        (drum_trigger_update st cfg h r now).1.peak_head = 0 ∧
        (drum_trigger_update st cfg h r now).1.peak_rim = 0) := by
  constructor
  · intro cs hidle
    have hinit : idle_inv drum_trigger_init := by decide
    exact idle_inv_run_cfgs cs _ hinit hidle
  · intro st cfg h r now ha hc
    rw [update_active_close st cfg h r now ha hc]
    exact ⟨rfl, rfl, rfl, rfl, rfl⟩

/-- Witness for C13: the state after Scenario A (window closed at 105 with
`HEAD`) and the state after Scenario D (closed by the timeout) have no open
window, zero peaks and clear flags. -/
theorem C13_idle_state_invariant_witness :
    ((run_cfgs drum_trigger_init (scenario_A.map (fun x => (main_cfg, x)))).peak_head = 0 ∧
      (run_cfgs drum_trigger_init (scenario_A.map (fun x => (main_cfg, x)))).peak_rim = 0 ∧
      (run_cfgs drum_trigger_init (scenario_A.map (fun x => (main_cfg, x)))).seen_high_head
        = false ∧
      (run_cfgs drum_trigger_init (scenario_A.map (fun x => (main_cfg, x)))).seen_high_rim
        = false) ∧
    (drum_trigger_update (run scenario_D_cfg drum_trigger_init (scenario_D.take 4))
      scenario_D_cfg 249 0 130).1.peak_head = 0 :=
  ⟨C13_idle_state_invariant.1 (scenario_A.map (fun x => (main_cfg, x))) (by decide),
    (C13_idle_state_invariant.2 (run scenario_D_cfg drum_trigger_init (scenario_D.take 4))
      scenario_D_cfg 249 0 130 (by decide) (by decide)).2.2.2.1⟩

/-- C14 (counterexample): with `saturated_cfg` a window opened at 100 by a head
reading of 400 with the rim at 0 closes at 130 by the timeout with `head_hit`
and `rim_hit` both true and peaks 400 and 0. The ratio saturates to
`0xFFFFFFFF`, which satisfies `ratio <= both_ratio_q15 = 0xFFFFFFFF`, and the
returned kind is `BOTH`, not the dominant channel. -/
theorem C14_saturated_ratio_passes :
    (run saturated_cfg drum_trigger_init [⟨400, 0, 100⟩]).group_active = true ∧
    head_hit (run saturated_cfg drum_trigger_init [⟨400, 0, 100⟩]) saturated_cfg 0 = true ∧
    rim_hit (run saturated_cfg drum_trigger_init [⟨400, 0, 100⟩]) saturated_cfg 0 = true ∧
    drum_trigger_update (run saturated_cfg drum_trigger_init [⟨400, 0, 100⟩]) saturated_cfg
        0 0 130 =
      ({ group_active := false, group_start_ms := 100, peak_head := 0, peak_rim := 0,
         last_above_low_head_ms := 100, last_above_low_rim_ms := 130,
         last_hit_head_ms := 130, last_hit_rim_ms := 130,
         seen_high_head := false, seen_high_rim := false },
        { kind := .DRUM_HIT_BOTH, peak_head := 400, peak_rim := 0, t_ms := 130 }) ∧
    ratio_q15 400 0 = 4294967295 ∧
    ratio_q15 400 0 ≤ saturated_cfg.both_ratio_q15 ∧
    ¬ ((drum_trigger_update (run saturated_cfg drum_trigger_init [⟨400, 0, 100⟩]) saturated_cfg
        0 0 130).2.kind = .DRUM_HIT_HEAD) := by
  decide

/-- C14 (amended): when a window closes with `head_hit` and `rim_hit` both true
and the smaller of the two event peaks is 0, the ratio is the saturation value
`0xFFFFFFFF` (no division by zero); it fails the test `ratio <= both_ratio_q15`
whenever `both_ratio_q15 < 0xFFFFFFFF`; and for every configuration with
`both_ratio_q15 < 0xFFFFFFFF` or `min_secondary_for_both > 0` the returned kind is
the dominant channel (`HEAD` if `peak_head >= peak_rim`, else `RIM`), never
`BOTH`. -/
theorem C14_zero_secondary_saturation (st : drum_trigger_state_t) (cfg : drum_trigger_cfg_t)
    (h r now : Nat)
    (ha : st.group_active = true)
    (hp : (drum_trigger_update st cfg h r now).1.group_active = false)
    (hh : head_hit st cfg h = true)
    (hr : rim_hit st cfg r = true)
    (hz : min (drum_trigger_update st cfg h r now).2.peak_head
      (drum_trigger_update st cfg h r now).2.peak_rim = 0)
    (hcfg : cfg.both_ratio_q15 < 4294967295 ∨ 0 < cfg.min_secondary_for_both) :
    ratio_q15
        (max (drum_trigger_update st cfg h r now).2.peak_head
          (drum_trigger_update st cfg h r now).2.peak_rim)
        (min (drum_trigger_update st cfg h r now).2.peak_head
          (drum_trigger_update st cfg h r now).2.peak_rim) = 4294967295 ∧
    (cfg.both_ratio_q15 < 4294967295 →
      ¬ (ratio_q15
          (max (drum_trigger_update st cfg h r now).2.peak_head
            (drum_trigger_update st cfg h r now).2.peak_rim)
          (min (drum_trigger_update st cfg h r now).2.peak_head
            (drum_trigger_update st cfg h r now).2.peak_rim) ≤ cfg.both_ratio_q15)) ∧
    (drum_trigger_update st cfg h r now).2.kind =
      (if (drum_trigger_update st cfg h r now).2.peak_head ≥
          (drum_trigger_update st cfg h r now).2.peak_rim
        then .DRUM_HIT_HEAD else .DRUM_HIT_RIM) ∧
    (drum_trigger_update st cfg h r now).2.kind ≠ .DRUM_HIT_BOTH := by
  rw [closing_call_event st cfg h r now ha hp] at hz ⊢
  simp only at hz ⊢
  unfold head_hit at hh
  unfold rim_hit at hr
  have hk := classify_both_hit cfg (seen_head_now st cfg h) (seen_rim_now st cfg r)
    (u16_max st.peak_head h) (u16_max st.peak_rim r) hh hr
  unfold final_kind
  rw [hk]
  clear hk hh hr hp
  generalize u16_max st.peak_head h = ph at *
  generalize u16_max st.peak_rim r = pr at *
  have hsat : ratio_q15 (max ph pr) (min ph pr) = 4294967295 := by
    rw [hz]; unfold ratio_q15; simp
  have hminv : (if ph ≥ pr then pr else ph) = 0 := by
    by_cases hge : ph ≥ pr
    · rw [if_pos hge]; rw [min_eq_right hge] at hz; exact hz
    · rw [if_neg hge]; rw [min_eq_left (Nat.le_of_lt (Nat.lt_of_not_ge hge))] at hz; exact hz
  have htest : (decide ((if ph ≥ pr then pr else ph) ≥ cfg.min_secondary_for_both) &&
      decide (ratio_q15 (if ph ≥ pr then ph else pr) (if ph ≥ pr then pr else ph)
        ≤ cfg.both_ratio_q15)) = false := by
    rw [hminv]
    rcases hcfg with hlt | hpos
    · have hq : ratio_q15 (if ph ≥ pr then ph else pr) 0 = 4294967295 := by
        unfold ratio_q15; simp
      rw [hq]
      have : decide (4294967295 ≤ cfg.both_ratio_q15) = false := by simpa using hlt
      rw [this]; simp
    · have : decide (0 ≥ cfg.min_secondary_for_both) = false := by
        simp only [ge_iff_le, decide_eq_false_iff_not]; omega
      rw [this]; rfl
  rw [htest]
  refine ⟨hsat, ?_, ?_, ?_⟩
  · intro hlt; rw [hsat]; omega
  · simp
  · simp only [Bool.false_eq_true, if_false]
    split <;> simp

/-- Witness for the amended C14: the window of the counterexample with
`both_ratio_q15` lowered to 49152 closes with kind `HEAD`. -/
theorem C14_zero_secondary_saturation_witness :
    (drum_trigger_update
      (run { saturated_cfg with both_ratio_q15 := 49152 } drum_trigger_init [⟨400, 0, 100⟩])
      { saturated_cfg with both_ratio_q15 := 49152 } 0 0 130).2.kind ≠ .DRUM_HIT_BOTH :=
  (C14_zero_secondary_saturation
    (run { saturated_cfg with both_ratio_q15 := 49152 } drum_trigger_init [⟨400, 0, 100⟩])
    { saturated_cfg with both_ratio_q15 := 49152 } 0 0 130
    (by decide) (by decide) (by decide) (by decide) (by decide) (Or.inl (by decide))).2.2.2

/-- C15: window open postcondition. For every idle state, if the head channel
is eligible (`(now - last_hit_head_ms) mod 2^32 >= retrigger_head_ms` and head
reading `>= th_high_head`) or the rim channel is eligible, then after the call
`group_active` is true, `group_start_ms = now`, the peaks are the current
readings, each `seen_high` flag tells whether its reading is at or above its
high threshold (also for a retrigger-locked channel), both `last_above_low`
timers are `now` whatever the readings, every other field (the two `last_hit`
locks) is unchanged, and the returned event has kind `NONE` and peaks 0. -/
theorem C15_window_open_postcondition (st : drum_trigger_state_t) (cfg : drum_trigger_cfg_t)
    (h r now : Nat)
    (hi : st.group_active = false)
    (hel : (cfg.retrigger_head_ms ≤ u32_sub now st.last_hit_head_ms ∧ cfg.th_high_head ≤ h) ∨
      (cfg.retrigger_rim_ms ≤ u32_sub now st.last_hit_rim_ms ∧ cfg.th_high_rim ≤ r)) :
    drum_trigger_update st cfg h r now =
      ({ group_active := true
         group_start_ms := now
         peak_head := h
         peak_rim := r
         last_above_low_head_ms := now
         last_above_low_rim_ms := now
         last_hit_head_ms := st.last_hit_head_ms
         last_hit_rim_ms := st.last_hit_rim_ms
         seen_high_head := decide (h ≥ cfg.th_high_head)
         seen_high_rim := decide (r ≥ cfg.th_high_rim) },
        { kind := .DRUM_HIT_NONE, peak_head := 0, peak_rim := 0, t_ms := now }) := by
  have hs : (head_start st cfg h now || rim_start st cfg r now) = true := by
    rcases hel with ⟨e1, e2⟩ | ⟨e1, e2⟩
    · have : head_start st cfg h now = true := by
        unfold head_start
        rw [(elapsed_eq_true_iff _ _ _).mpr e1]
        simpa using e2
      rw [this]; rfl
    · have : rim_start st cfg r now = true := by
        unfold rim_start
        rw [(elapsed_eq_true_iff _ _ _).mpr e1]
        simpa using e2
      rw [this]; simp
  rw [update_idle_open st cfg h r now hi hs]
  rfl

/-- Witness for C15: after the `HEAD` event of Scenario A at 105 the head is
locked until 123; readings head 500 / rim 300 at 106 open a window through the
rim channel, with `seen_high_head` set although the head is locked. -/
theorem C15_window_open_postcondition_witness :
    drum_trigger_update (run main_cfg drum_trigger_init scenario_A) main_cfg 500 300 106 =
      ({ group_active := true, group_start_ms := 106, peak_head := 500, peak_rim := 300,
         last_above_low_head_ms := 106, last_above_low_rim_ms := 106,
         last_hit_head_ms := (run main_cfg drum_trigger_init scenario_A).last_hit_head_ms,
         last_hit_rim_ms := (run main_cfg drum_trigger_init scenario_A).last_hit_rim_ms,
         seen_high_head := decide (500 ≥ main_cfg.th_high_head),
         seen_high_rim := decide (300 ≥ main_cfg.th_high_rim) },
        { kind := .DRUM_HIT_NONE, peak_head := 0, peak_rim := 0, t_ms := 106 }) :=
  C15_window_open_postcondition (run main_cfg drum_trigger_init scenario_A) main_cfg 500 300 106
    (by decide) (Or.inr ⟨by decide, by decide⟩)

/-- One call with the same configuration preserves `seen_inv`. -/
theorem seen_inv_update (cfg : drum_trigger_cfg_t) (st : drum_trigger_state_t) (h r now : Nat)
    (hinv : seen_inv cfg st) : seen_inv cfg (drum_trigger_update st cfg h r now).1 := by
  cases ha : st.group_active
  · cases hs : (head_start st cfg h now || rim_start st cfg r now)
    · rw [update_idle_quiet st cfg h r now ha hs]; exact hinv
    · rw [update_idle_open st cfg h r now ha hs]
      constructor
      · intro hseen; simpa using hseen
      · intro hseen; simpa using hseen
  · cases hc : close_cond st cfg h r now
    · rw [update_active_keep st cfg h r now ha hc]
      constructor
      · intro hseen
        have hseen2 : seen_head_now st cfg h = true := hseen
        show cfg.th_high_head ≤ u16_max st.peak_head h
        unfold seen_head_now at hseen2
        by_cases hge : h ≥ cfg.th_high_head
        · exact le_trans hge (u16_max_ge_right _ _)
        · rw [if_neg hge] at hseen2
          exact le_trans (hinv.1 hseen2) (u16_max_ge_left _ _)
      · intro hseen
        have hseen2 : seen_rim_now st cfg r = true := hseen
        show cfg.th_high_rim ≤ u16_max st.peak_rim r
        unfold seen_rim_now at hseen2
        by_cases hge : r ≥ cfg.th_high_rim
        · exact le_trans hge (u16_max_ge_right _ _)
        · rw [if_neg hge] at hseen2
          exact le_trans (hinv.2 hseen2) (u16_max_ge_left _ _)
    · rw [update_active_close st cfg h r now ha hc]
      constructor
      · intro hseen; simp at hseen
      · intro hseen; simp at hseen

theorem seen_inv_run (cfg : drum_trigger_cfg_t) (xs : List Sample) :
    ∀ st : drum_trigger_state_t, seen_inv cfg st → seen_inv cfg (run cfg st xs) := by
  induction xs with
  | nil => intro st hinv; exact hinv
  | cons x xs ih => intro st hinv; exact ih _ (seen_inv_update cfg st _ _ _ hinv)

theorem seen_inv_init (cfg : drum_trigger_cfg_t) : seen_inv cfg drum_trigger_init := by
  constructor <;> intro hseen <;> cases hseen

/-- From a state satisfying `seen_inv` the re-check of the peaks is redundant. -/
theorem hit_eq_seen (cfg : drum_trigger_cfg_t) (st : drum_trigger_state_t) (h r : Nat)
    (hinv : seen_inv cfg st) :
    head_hit st cfg h = seen_head_now st cfg h ∧ rim_hit st cfg r = seen_rim_now st cfg r := by
  constructor
  · unfold head_hit
    cases hs : seen_head_now st cfg h
    · rfl
    · have : cfg.th_high_head ≤ u16_max st.peak_head h := by
        unfold seen_head_now at hs
        by_cases hge : h ≥ cfg.th_high_head
        · exact le_trans hge (u16_max_ge_right _ _)
        · rw [if_neg hge] at hs
          exact le_trans (hinv.1 hs) (u16_max_ge_left _ _)
      simpa using this
  · unfold rim_hit
    cases hs : seen_rim_now st cfg r
    · rfl
    · have : cfg.th_high_rim ≤ u16_max st.peak_rim r := by
        unfold seen_rim_now at hs
        by_cases hge : r ≥ cfg.th_high_rim
        · exact le_trans hge (u16_max_ge_right _ _)
        · rw [if_neg hge] at hs
          exact le_trans (hinv.2 hs) (u16_max_ge_left _ _)
      simpa using this

/-- C16: in every state with an open window reached from the zero-initialised
state by calls with one fixed configuration, `seen_high_head` implies
`peak_head >= th_high_head` and `seen_high_rim` implies `peak_rim >= th_high_rim`.
Consequently, at a call made from such a state, `head_hit` equals the
`seen_high_head` flag as updated by that call and `rim_hit` equals the updated
`seen_high_rim` flag: the re-check of the final peaks against the high
thresholds changes neither, and so never changes the classification computed
from them. -/
theorem C16_seen_high_implies_peak :
    (∀ (cfg : drum_trigger_cfg_t) (pre : List Sample),
      (run cfg drum_trigger_init pre).group_active = true →
        ((run cfg drum_trigger_init pre).seen_high_head = true →
          cfg.th_high_head ≤ (run cfg drum_trigger_init pre).peak_head) ∧
        ((run cfg drum_trigger_init pre).seen_high_rim = true →
          cfg.th_high_rim ≤ (run cfg drum_trigger_init pre).peak_rim)) ∧
    (∀ (cfg : drum_trigger_cfg_t) (pre : List Sample) (h r : Nat),
      (run cfg drum_trigger_init pre).group_active = true →
        head_hit (run cfg drum_trigger_init pre) cfg h
          = seen_head_now (run cfg drum_trigger_init pre) cfg h ∧
        rim_hit (run cfg drum_trigger_init pre) cfg r
          = seen_rim_now (run cfg drum_trigger_init pre) cfg r) := by
  constructor
  · intro cfg pre _
    exact seen_inv_run cfg pre _ (seen_inv_init cfg)
  · intro cfg pre h r _
    exact hit_eq_seen cfg _ h r (seen_inv_run cfg pre _ (seen_inv_init cfg))

/-- Witness for C16: the state of Scenario B after the call at 101 has both
flags set with peaks 500 and 480, above the thresholds 250. -/
theorem C16_seen_high_implies_peak_witness :
    (main_cfg.th_high_head ≤ (run main_cfg drum_trigger_init (scenario_B.take 2)).peak_head ∧
      main_cfg.th_high_rim ≤ (run main_cfg drum_trigger_init (scenario_B.take 2)).peak_rim) ∧
    head_hit (run main_cfg drum_trigger_init (scenario_B.take 2)) main_cfg 0 =
      seen_head_now (run main_cfg drum_trigger_init (scenario_B.take 2)) main_cfg 0 :=
  ⟨⟨(C16_seen_high_implies_peak.1 main_cfg (scenario_B.take 2) (by decide)).1 (by decide),
      (C16_seen_high_implies_peak.1 main_cfg (scenario_B.take 2) (by decide)).2 (by decide)⟩,
    (C16_seen_high_implies_peak.2 main_cfg (scenario_B.take 2) 0 0 (by decide)).1⟩

/-- C17: the Q15 ratio is exact. For 16-bit `maxv` and `minv` with `minv > 0` the
shifted value `maxv * 32768` is below `2^32`, so the shift does not overflow, and
`ratio_q15 maxv minv` is the integer quotient `floor(maxv * 32768 / minv)`; and
`ratio_q15 maxv 0 = 0xFFFFFFFF` for every `maxv`. -/
theorem C17_ratio_q15_exact :
    (∀ maxv minv : Nat, maxv < 65536 → minv < 65536 → 0 < minv →
      maxv * 32768 < U32_MOD ∧ ratio_q15 maxv minv = maxv * 32768 / minv) ∧
    (∀ maxv : Nat, ratio_q15 maxv 0 = 4294967295) := by
  constructor
  · intro maxv minv hm _ hz
    refine ⟨?_, ratio_q15_exact maxv minv hm hz⟩
    unfold U32_MOD; omega
  · intro maxv
    unfold ratio_q15
    simp

/-- Witness for C17: the ratio of the largest 16-bit value to 1, and of 500 to
300. -/
theorem C17_ratio_q15_exact_witness :
    ratio_q15 65535 1 = 65535 * 32768 / 1 ∧ ratio_q15 500 300 = 500 * 32768 / 300 :=
  ⟨(C17_ratio_q15_exact.1 65535 1 (by decide) (by decide) (by decide)).2,
    (C17_ratio_q15_exact.1 500 300 (by decide) (by decide) (by decide)).2⟩

/-- C18: a retrigger-locked channel can still be reported when the other
channel opens the window. With the configuration of `main` (retrigger 18 ms on
both channels) and the non-decreasing timestamps of `relock_calls` from the
zero-initialised state, the call at 105 returns `HEAD`; at 106 the head is locked
and readings head 500 / rim 300 open a window through the rim channel; after
both readings fall to 0 the call at 110 returns `HEAD` again, 5 ms after the
first. So some configuration with `retrigger_head_ms > 0` and some sequence of
calls has two events containing `HEAD` less than `retrigger_head_ms` apart. -/
theorem C18_locked_channel_reported_again :
    events main_cfg drum_trigger_init relock_calls =
      [no_event 100, no_event 101, no_event 102, no_event 103, no_event 104,
        { kind := .DRUM_HIT_HEAD, peak_head := 400, peak_rim := 50, t_ms := 105 },
        no_event 106, no_event 107, no_event 108, no_event 109,
        { kind := .DRUM_HIT_HEAD, peak_head := 500, peak_rim := 300, t_ms := 110 }] ∧
    head_start (run main_cfg drum_trigger_init scenario_A) main_cfg 500 106 = false ∧
    rim_start (run main_cfg drum_trigger_init scenario_A) main_cfg 300 106 = true ∧
    (∃ (cfg : drum_trigger_cfg_t) (xs : List Sample) (i j : Nat) (ei ej : drum_hit_t),
      0 < cfg.retrigger_head_ms ∧
      List.Pairwise (fun a b => a ≤ b) (xs.map (fun x => x.now_ms)) ∧
      i < j ∧
      (events cfg drum_trigger_init xs)[i]? = some ei ∧
      (events cfg drum_trigger_init xs)[j]? = some ej ∧
      ei.kind.has_head = true ∧ ej.kind.has_head = true ∧
      ei.t_ms ≤ ej.t_ms ∧ ej.t_ms - ei.t_ms < cfg.retrigger_head_ms) := by
  refine ⟨by decide, by decide, by decide, ?_⟩
  exact ⟨main_cfg, relock_calls, 5, 10,
    { kind := .DRUM_HIT_HEAD, peak_head := 400, peak_rim := 50, t_ms := 105 },
    { kind := .DRUM_HIT_HEAD, peak_head := 500, peak_rim := 300, t_ms := 110 },
    by decide, by decide, by decide, by decide, by decide, by decide, by decide, by decide,
    by decide⟩

/-- With `since = 0` the modular difference is the timestamp itself. -/
theorem u32_sub_zero (now : Nat) (hn : now < U32_MOD) : u32_sub now 0 = now := by
  unfold u32_sub U32_MOD at *
  omega

theorem u32_sub_zero_le (now : Nat) : u32_sub now 0 ≤ now := by
  unfold u32_sub U32_MOD
  omega

/-- C19: start-up dead time. From the zero-initialised state, for every
configuration and readings, a call at a timestamp below both retrigger
intervals returns `NONE` and leaves the state unchanged. For a 32-bit timestamp
and a head reading at or above `th_high_head`, the head channel starts a window
from that state exactly when `now_ms >= retrigger_head_ms`; with the rim reading
below `th_high_rim` (so that only the head can open it) the window is open after
the call exactly when `now_ms >= retrigger_head_ms`. -/
theorem C19_startup_dead_time :
    (∀ (cfg : drum_trigger_cfg_t) (h r now : Nat),
      now < cfg.retrigger_head_ms → now < cfg.retrigger_rim_ms →
        drum_trigger_update drum_trigger_init cfg h r now =
          (drum_trigger_init,
            { kind := .DRUM_HIT_NONE, peak_head := 0, peak_rim := 0, t_ms := now })) ∧
    (∀ (cfg : drum_trigger_cfg_t) (h now : Nat),
      now < U32_MOD → cfg.th_high_head ≤ h →
        (head_start drum_trigger_init cfg h now = true ↔ cfg.retrigger_head_ms ≤ now)) ∧
    (∀ (cfg : drum_trigger_cfg_t) (h r now : Nat),
      now < U32_MOD → cfg.th_high_head ≤ h → r < cfg.th_high_rim →
        ((drum_trigger_update drum_trigger_init cfg h r now).1.group_active = true ↔
          cfg.retrigger_head_ms ≤ now)) := by
  have hstart : ∀ (cfg : drum_trigger_cfg_t) (h now : Nat),
      now < U32_MOD → cfg.th_high_head ≤ h →
        (head_start drum_trigger_init cfg h now = true ↔ cfg.retrigger_head_ms ≤ now) := by
    intro cfg h now hn hh
    unfold head_start
    have hd : decide (h ≥ cfg.th_high_head) = true := by simpa using hh
    have hl : drum_trigger_init.last_hit_head_ms = 0 := rfl
    rw [hd, Bool.and_true, elapsed_eq_true_iff, hl, u32_sub_zero now hn]
  refine ⟨?_, hstart, ?_⟩
  · intro cfg h r now h1 h2
    apply update_idle_quiet drum_trigger_init cfg h r now rfl
    have e1 : head_start drum_trigger_init cfg h now = false := by
      unfold head_start
      have : elapsed now drum_trigger_init.last_hit_head_ms cfg.retrigger_head_ms = false := by
        rw [elapsed_eq_false_iff]
        exact lt_of_le_of_lt (u32_sub_zero_le now) h1
      rw [this]; rfl
    have e2 : rim_start drum_trigger_init cfg r now = false := by
      unfold rim_start
      have : elapsed now drum_trigger_init.last_hit_rim_ms cfg.retrigger_rim_ms = false := by
        rw [elapsed_eq_false_iff]
        exact lt_of_le_of_lt (u32_sub_zero_le now) h2
      rw [this]; rfl
    rw [e1, e2]; rfl
  · intro cfg h r now hn hh hr
    have e2 : rim_start drum_trigger_init cfg r now = false := by
      unfold rim_start
      have : decide (r ≥ cfg.th_high_rim) = false := by simpa using hr
      rw [this]; simp
    rw [← hstart cfg h now hn hh]
    cases hs : head_start drum_trigger_init cfg h now
    · rw [update_idle_quiet drum_trigger_init cfg h r now rfl (by rw [hs, e2]; rfl)]
      simp [drum_trigger_init]
    · rw [update_idle_open drum_trigger_init cfg h r now rfl (by rw [hs]; rfl)]

/-- Witness for C19 with the configuration of `main` (retrigger 18 ms): a head
reading of 400 at timestamp 17 opens nothing, at timestamp 18 it opens a
window. -/
theorem C19_startup_dead_time_witness :
    drum_trigger_update drum_trigger_init main_cfg 400 400 17 =
      (drum_trigger_init,
        { kind := .DRUM_HIT_NONE, peak_head := 0, peak_rim := 0, t_ms := 17 }) ∧
    head_start drum_trigger_init main_cfg 400 18 = true ∧
    (drum_trigger_update drum_trigger_init main_cfg 400 0 18).1.group_active = true :=
  ⟨C19_startup_dead_time.1 main_cfg 400 400 17 (by decide) (by decide),
    (C19_startup_dead_time.2.1 main_cfg 400 18 (by decide) (by decide)).mpr (by decide),
    (C19_startup_dead_time.2.2 main_cfg 400 0 18 (by decide) (by decide) (by decide)).mpr
      (by decide)⟩

/-- C20: `elapsed` is wraparound-safe. For every timestamp `since` (32-bit or
not: the subtraction reduces it modulo `2^32`), every true
duration `d < 2^32` and every threshold `dt`,
`elapsed ((since + d) mod 2^32) since dt` is true if and only if `d >= dt`,
whether or not `since + d` overflowed 32 bits. -/
theorem C20_elapsed_wraparound_safe (since d dt : Nat) (hd : d < U32_MOD) :
    elapsed ((since + d) % U32_MOD) since dt = true ↔ dt ≤ d := by
  rw [elapsed_eq_true_iff, u32_sub_add_mod since d hd]

/-- Witness for C20: 10 ms after `since = 2^32 - 6` the timestamp is 4, and
`elapsed 4 since 10` holds. -/
theorem C20_elapsed_wraparound_safe_witness :
    (4294967290 + 10) % U32_MOD = 4 ∧ elapsed 4 4294967290 10 = true ∧
      elapsed 4 4294967290 11 = false :=
  ⟨by decide,
    (C20_elapsed_wraparound_safe 4294967290 10 10 (by decide)).mpr (by decide),
    by decide⟩

end DrumTrigger
